import Mathlib

/-!
Verification development for the PowerCV LLM-orchestration core
(`app/services/cv_analyzer.py`, `cv_optimizer.py`, `cover_letter_gen.py`,
`workflow_orchestrator.py`, `cerebras_client.py`, and the
`sanitize_for_pydantic` helper of `app/api/routers/resume.py`).

The Python code is shallowly embedded: JSON-like Python values become the
inductive type `JVal` (dicts are association lists in insertion order, as
Python dicts preserve insertion order; numbers are modelled as integers,
since every numeric literal relevant here is an integer), strings are
manipulated as `List Char` (Python strings are sequences of code points),
and `raise` is modelled with `Except String` carrying the exception
message.  Each definition keeps the name of the Python function it embeds.
-/

set_option maxRecDepth 40000

namespace PowerCV

/-- Python/JSON values.  Objects are association lists in key insertion
order; all numerals occurring in this development are integers, so numbers
are modelled by `Int`. -/
inductive JVal where
  | null : JVal
  | bool (b : Bool) : JVal
  | num (n : Int) : JVal
  | str (s : String) : JVal
  | arr (elems : List JVal) : JVal
  | obj (fields : List (String × JVal)) : JVal

/-- Python truthiness on these values: `None`, `False`, `0`, `""`, `[]`,
`{}` are falsy; everything else is truthy. -/
def JVal.truthy : JVal → Bool
  | .null => false
  | .bool b => b
  | .num n => n != 0
  | .str s => s != ""
  | .arr l => !l.isEmpty
  | .obj l => !l.isEmpty

/-- `isinstance(v, dict)`. -/
def JVal.isObj : JVal → Bool
  | .obj _ => true
  | _ => false

/-- The condition `field not in d or not d[field]` on a lookup result. -/
def missingOrFalsy : Option JVal → Bool
  | none => true
  | some v => !v.truthy

/-- First-occurrence lookup in a Python dict (association list). -/
def getk : List (String × JVal) → String → Option JVal
  | [], _ => none
  | (k, v) :: t, key => if k = key then some v else getk t key

/-- Python dict assignment `d[key] = v`: replaces the value at the first
occurrence of `key`, keeping its position, or appends `(key, v)` at the end
when `key` is absent (Python dicts keep insertion order). -/
def setk : List (String × JVal) → String → JVal → List (String × JVal)
  | [], key, v => [(key, v)]
  | (k, w) :: t, key, v =>
      if k = key then (key, v) :: t else (k, w) :: setk t key v

/-- Python whitespace for `str.strip` / `str.split`:
space, tab, newline, carriage return, vertical tab, form feed. -/
def pyWs (c : Char) : Bool :=
  c = ' ' || c = '\t' || c = '\n' || c = '\r' || c = '\x0b' || c = '\x0c'

/-- `str.lower()` (ASCII fragment, as used by the code's comparisons). -/
def pyLower (s : String) : String :=
  ⟨s.toList.map Char.toLower⟩

/-- `str.strip()` on a code-point list. -/
def pyStrip (l : List Char) : List Char :=
  ((l.dropWhile pyWs).reverse.dropWhile pyWs).reverse

/-- Helper for `pySplitCount`: `inTok` records whether the previous
character belonged to a token. -/
def pySplitCountGo : List Char → Bool → Nat
  | [], _ => 0
  | c :: t, inTok =>
      if pyWs c then pySplitCountGo t false
      else (if inTok then 0 else 1) + pySplitCountGo t true

/-- Count of `str.split()` tokens: number of maximal runs of
non-whitespace characters. -/
def pySplitCount (l : List Char) : Nat :=
  pySplitCountGo l false

/-- Whether `pat` occurs as a contiguous sublist of `l`
(Python `pat in s` on strings). -/
def occursIn (pat : List Char) : List Char → Bool
  | [] => pat.isEmpty
  | c :: t => pat.isPrefixOf (c :: t) || occursIn pat t

/-- One step of `str.replace`: fuelled scan.  At each position, if `pat`
is a prefix, emit `rep` and continue after the matched occurrence,
otherwise copy one character — exactly Python's left-to-right
non-overlapping replacement (all our patterns are non-empty). -/
def pyReplaceFuel (pat rep : List Char) : Nat → List Char → List Char
  | _, [] => []
  | 0, l => l
  | fuel + 1, c :: t =>
      if pat.isPrefixOf (c :: t) && !pat.isEmpty then
        rep ++ pyReplaceFuel pat rep fuel ((c :: t).drop pat.length)
      else
        c :: pyReplaceFuel pat rep fuel t

/-- `str.replace(pat, rep)` (for non-empty `pat`). -/
def pyReplace (pat rep l : List Char) : List Char :=
  pyReplaceFuel pat rep l.length l

/-- Index of the first occurrence of character `c` (`str.find`),
`none` for Python's `-1`. -/
def pyFind (c : Char) (l : List Char) : Option Nat :=
  l.findIdx? (· = c)

/-- Index of the last occurrence of character `c` (`str.rfind`). -/
def pyRFind (c : Char) (l : List Char) : Option Nat :=
  match pyFind c l.reverse with
  | none => none
  | some i => some (l.length - 1 - i)

/-- Helper for `splitLines`, accumulating the current segment reversed. -/
def splitLinesGo : List Char → List Char → List (List Char)
  | [], acc => [acc.reverse]
  | c :: t, acc =>
      if c = '\n' then acc.reverse :: splitLinesGo t []
      else splitLinesGo t (c :: acc)

/-- `str.split('\n')`. -/
def splitLines (l : List Char) : List (List Char) :=
  splitLinesGo l []

/-- `'\n'.join`. -/
def joinLines : List (List Char) → List Char
  | [] => []
  | [x] => x
  | x :: y :: t => x ++ '\n' :: joinLines (y :: t)

/-! ## Strict JSON parsing (`json.loads`)

The parser below models Python's `json.loads` on the fragment relevant to
this code base: objects, arrays, strings with the common escapes,
integers, booleans and `null`.  Unsupported corners (floating-point
fractions, `\uXXXX` escapes, duplicate keys where Python keeps the last
binding) do not occur in the concrete inputs of any theorem, and the
universally quantified theorems below never depend on them. -/

/-- JSON whitespace per `json.loads` (space, tab, newline, return). -/
def jWs (c : Char) : Bool :=
  c = ' ' || c = '\t' || c = '\n' || c = '\r'

/-- Skip JSON whitespace. -/
def skipJWs (l : List Char) : List Char :=
  l.dropWhile jWs

/-- Decoding of a single string escape `\c` (backspace is `\x08`, form
feed `\x0c`). -/
def escChar (c : Char) : Option Char :=
  if c = '"' ∨ c = '\\' ∨ c = '/' then some c
  else if c = 'n' then some '\n'
  else if c = 't' then some '\t'
  else if c = 'r' then some '\r'
  else if c = 'b' then some '\x08'
  else if c = 'f' then some '\x0c'
  else none

/-- Parse the body of a JSON string (opening quote already consumed),
accumulating decoded characters in reverse.  Control characters are
rejected, as in strict-mode `json.loads`. -/
def parseJStringGo : List Char → List Char → Option (String × List Char)
  | [], _ => none
  | c :: t, acc =>
      if c = '"' then some (⟨acc.reverse⟩, t)
      else if c = '\\' then
        match t with
        | e :: t2 =>
            match escChar e with
            | some d => parseJStringGo t2 (d :: acc)
            | none => none
        | [] => none
      else if c.toNat < 32 then none
      else parseJStringGo t (c :: acc)

/-- Decimal digits to a natural number (48 is the code point of `'0'`). -/
def digitsToNatGo (acc : Nat) : List Char → Nat
  | [] => acc
  | c :: t => digitsToNatGo (10 * acc + (c.toNat - 48)) t

/-- Decimal digits to a natural number. -/
def digitsToNat (l : List Char) : Nat :=
  digitsToNatGo 0 l

/-- Parse an unsigned integer literal. -/
def parseJNat (l : List Char) : Option (Nat × List Char) :=
  let digits := l.takeWhile Char.isDigit
  if digits.isEmpty then none
  else some (digitsToNat digits, l.drop digits.length)

mutual

/-- Parse one JSON value (fuelled; the fuel passed by `json_loads` always
suffices for its input). -/
def parseJVal : Nat → List Char → Option (JVal × List Char)
  | 0, _ => none
  | f + 1, l =>
      match l with
      | '{' :: t =>
          (match skipJWs t with
           | '}' :: r => some (.obj [], r)
           | t2 =>
               match parseJMembers f t2 with
               | some (fs, r) => some (.obj fs, r)
               | none => none)
      | '[' :: t =>
          (match skipJWs t with
           | ']' :: r => some (.arr [], r)
           | t2 =>
               match parseJElems f t2 with
               | some (es, r) => some (.arr es, r)
               | none => none)
      | '"' :: t =>
          (match parseJStringGo t [] with
           | some (s, r) => some (.str s, r)
           | none => none)
      | 't' :: t =>
          if ['r', 'u', 'e'].isPrefixOf t then some (.bool true, t.drop 3) else none
      | 'f' :: t =>
          if ['a', 'l', 's', 'e'].isPrefixOf t then some (.bool false, t.drop 4) else none
      | 'n' :: t =>
          if ['u', 'l', 'l'].isPrefixOf t then some (.null, t.drop 3) else none
      | '-' :: t =>
          (match parseJNat t with
           | some (n, r) => some (.num (-(n : Int)), r)
           | none => none)
      | c :: _ =>
          if c.isDigit then
            match parseJNat l with
            | some (n, r) => some (.num (n : Int), r)
            | none => none
          else none
      | [] => none

/-- Parse `"key": value` members of an object up to the closing `}`. -/
def parseJMembers : Nat → List Char → Option (List (String × JVal) × List Char)
  | 0, _ => none
  | f + 1, l =>
      match l with
      | '"' :: t =>
          (match parseJStringGo t [] with
           | some (k, r1) =>
               (match skipJWs r1 with
                | ':' :: r2 =>
                    (match parseJVal f (skipJWs r2) with
                     | some (v, r3) =>
                         (match skipJWs r3 with
                          | ',' :: r4 =>
                              (match parseJMembers f (skipJWs r4) with
                               | some (fs, r5) => some ((k, v) :: fs, r5)
                               | none => none)
                          | '}' :: r4 => some ([(k, v)], r4)
                          | _ => none)
                     | none => none)
                | _ => none)
           | none => none)
      | _ => none

/-- Parse the elements of an array up to the closing `]`. -/
def parseJElems : Nat → List Char → Option (List JVal × List Char)
  | 0, _ => none
  | f + 1, l =>
      match parseJVal f l with
      | some (v, r1) =>
          (match skipJWs r1 with
           | ',' :: r2 =>
               (match parseJElems f (skipJWs r2) with
                | some (es, r3) => some (v :: es, r3)
                | none => none)
           | ']' :: r2 => some ([v], r2)
           | _ => none)
      | none => none

end

/-- `json.loads` on a code-point list: exactly one JSON document with
optional surrounding whitespace; `none` models `json.JSONDecodeError`. -/
def json_loadsL (l : List Char) : Option JVal :=
  let l1 := skipJWs l
  match parseJVal (2 * l1.length + 8) l1 with
  | some (v, rest) => if (skipJWs rest).isEmpty then some v else none
  | none => none

/-- `json.loads` on a string. -/
def json_loads (s : String) : Option JVal :=
  json_loadsL s.toList

/-! ## Regex primitives used by the fallback parsers

`cv_analyzer._fallback_parse` uses three case-insensitive patterns:
`"?ats_score"?\s*:\s*(\d+)`, `"?summary"?\s*:\s*"([^"]+)"` and
`"?keyword"?\s*:\s*"([^"]+)"`.  They are embedded operationally: a match
attempt at a position follows the backtracking order of Python's `re`
(greedy optional quotes, greedy whitespace, greedy digit / non-quote
runs), and searching tries positions left to right. -/

/-- Match `lit` case-insensitively as a literal; return the rest. -/
def matchLitCI : List Char → List Char → Option (List Char)
  | [], l => some l
  | _ :: _, [] => none
  | p :: ps, c :: cs => if c.toLower = p.toLower then matchLitCI ps cs else none

/-- After the literal key name: match `"?\s*:\s*(\d+)`, returning the
captured digit run as a number. -/
def matchNumTail (rest : List Char) : Option Nat :=
  let tryFrom : List Char → Option Nat := fun r =>
    match r.dropWhile pyWs with
    | ':' :: r2 =>
        let r3 := r2.dropWhile pyWs
        let digits := r3.takeWhile Char.isDigit
        if digits.isEmpty then none else some (digitsToNat digits)
    | _ => none
  match rest with
  | '"' :: r => (tryFrom r).orElse (fun _ => tryFrom rest)
  | _ => tryFrom rest

/-- Match `"?ats_score"?\s*:\s*(\d+)` at the head of `l`. -/
def matchAtsAt (l : List Char) : Option Nat :=
  let core : List Char → Option Nat := fun r =>
    match matchLitCI "ats_score".toList r with
    | some rest => matchNumTail rest
    | none => none
  match l with
  | '"' :: t => (core t).orElse (fun _ => core l)
  | _ => core l

/-- `re.search` for the ats-score pattern: leftmost match wins. -/
def searchAts : List Char → Option Nat
  | [] => none
  | c :: t =>
      match matchAtsAt (c :: t) with
      | some n => some n
      | none => searchAts t

/-- After the literal key name: match `"?\s*:\s*"([^"]+)"`, returning the
captured group and the text after the closing quote. -/
def matchStrTail (rest : List Char) : Option (List Char × List Char) :=
  let tryFrom : List Char → Option (List Char × List Char) := fun r =>
    match r.dropWhile pyWs with
    | ':' :: r2 =>
        (match r2.dropWhile pyWs with
         | '"' :: r3 =>
             let grp := r3.takeWhile (· ≠ '"')
             if grp.isEmpty then none
             else
               match r3.drop grp.length with
               | '"' :: after => some (grp, after)
               | _ => none
         | _ => none)
    | _ => none
  match rest with
  | '"' :: r => (tryFrom r).orElse (fun _ => tryFrom rest)
  | _ => tryFrom rest

/-- Match `"?<lit>"?\s*:\s*"([^"]+)"` at the head of `l`. -/
def matchKVAt (lit : List Char) (l : List Char) : Option (List Char × List Char) :=
  let core : List Char → Option (List Char × List Char) := fun r =>
    match matchLitCI lit r with
    | some rest => matchStrTail rest
    | none => none
  match l with
  | '"' :: t => (core t).orElse (fun _ => core l)
  | _ => core l

/-- `re.search` for a quoted-value pattern: first match's group. -/
def searchKV (lit : List Char) : List Char → Option (List Char)
  | [] => none
  | c :: t =>
      match matchKVAt lit (c :: t) with
      | some (g, _) => some g
      | none => searchKV lit t

/-- `re.findall` for a quoted-value pattern (fuelled scan; the fuel passed
by `findAllKV` always suffices): non-overlapping matches left to right,
scanning resumes after each match. -/
def findAllKVFuel (lit : List Char) : Nat → List Char → List (List Char)
  | 0, _ => []
  | _, [] => []
  | f + 1, c :: t =>
      match matchKVAt lit (c :: t) with
      | some (g, rest) => g :: findAllKVFuel lit f rest
      | none => findAllKVFuel lit f t

/-- `re.findall` for a quoted-value pattern. -/
def findAllKV (lit : List Char) (l : List Char) : List (List Char) :=
  findAllKVFuel lit l.length l

namespace CVAnalyzer

/-- `CVAnalyzer._clean_json_response` (`cv_analyzer.py:74-115`): strip,
drop a leading/trailing code fence, slice to the outermost braces when
both are present in the right order, then apply the four literal
`str.replace` repairs and remove leftover fence markers. -/
def clean_json_response (response : List Char) : List Char :=
  let r0 := pyStrip response
  let r1 :=
    if "```".toList.isPrefixOf r0 then
      let lines := splitLines r0
      let lines :=
        match lines with
        | first :: rest => if "```".toList.isPrefixOf first then rest else lines
        | [] => lines
      let lines :=
        match lines.getLast? with
        | some last => if pyStrip last = "```".toList then lines.dropLast else lines
        | none => lines
      joinLines lines
    else r0
  let r2 :=
    match pyFind '{' r1, pyRFind '}' r1 with
    | some s, some e => if s < e then (r1.drop s).take (e + 1 - s) else r1
    | _, _ => r1
  let r3 := pyStrip r2
  let r4 := pyReplace ",\n\x7d".toList "\n\x7d".toList r3
  let r5 := pyReplace ", \x7d".toList " \x7d".toList r4
  let r6 := pyReplace "\x7d\n    \x7b".toList "\x7d,\n    \x7b".toList r5
  let r7 := pyReplace "\"\n    \"".toList "\",\n    \"".toList r6
  let r8 := pyReplace "```json".toList "".toList r7
  let r9 := pyReplace "```".toList "".toList r8
  pyStrip r9

/-- The skeleton dict built first by `CVAnalyzer._fallback_parse`
(`cv_analyzer.py:129-153`). -/
def fallback_base : List (String × JVal) :=
  [("ats_score", .num 50),
   ("summary", .str "Analysis completed with fallback parsing"),
   ("keyword_analysis", .obj
      [("matched_keywords", .arr []),
       ("missing_critical", .arr []),
       ("missing_nice_to_have", .arr [])]),
   ("experience_analysis", .obj
      [("relevant_roles", .arr []),
       ("transferable_roles", .arr [])]),
   ("skill_gaps", .obj
      [("critical", .arr []),
       ("important", .arr []),
       ("nice_to_have", .arr [])]),
   ("strengths", .arr []),
   ("education_relevance", .obj
      [("relevant_degrees", .arr []),
       ("relevant_certifications", .arr [])]),
   ("optimization_priorities", .arr []),
   ("recommendations", .arr [])]

/-- `CVAnalyzer._fallback_parse` (`cv_analyzer.py:117-173`): regex-based
partial extraction.  The extracted ats score is stored verbatim
(`int(ats_match.group(1))` — the source applies no clamping); the first
ten `"keyword": "…"` groups become a synthetic matched-keyword list; a
`"summary": "…"` group overrides the default summary.  Every operation
used is total, so this function cannot raise. -/
def fallback_parse (response : List Char) : JVal :=
  let a0 := fallback_base
  let a1 :=
    match searchAts response with
    | some n => setk a0 "ats_score" (.num (n : Int))
    | none => a0
  let kws := (findAllKV "keyword".toList response).take 10
  let a2 :=
    if kws.isEmpty then a1
    else
      match getk a1 "keyword_analysis" with
      | some (.obj ka) =>
          setk a1 "keyword_analysis" (.obj (setk ka "matched_keywords"
            (.arr (kws.map (fun kw => .obj
              [("keyword", .str ⟨kw⟩),
               ("jd_mentions", .num 1),
               ("cv_mentions", .num 1)])))))
      | _ => a1
  let a3 :=
    match searchKV "summary".toList response with
    | some s => setk a2 "summary" (.str ⟨s⟩)
    | none => a2
  .obj a3

/-- The response-processing stage of `CVAnalyzer.analyze`
(`cv_analyzer.py:54-72`), parameterised by the raw LLM reply (the
transport call is abstracted away; a reply string is what a successful
`chat_completion` returns).  `Except.error` models the final
`raise ValueError` — reachable in the source only if `_fallback_parse`
raised, which its embedding shows it cannot. -/
def analyze (response : List Char) : Except String JVal :=
  match json_loadsL (clean_json_response response) with
  | some analysis => .ok analysis
  | none => .ok (fallback_parse response)

end CVAnalyzer

namespace CVOptimizer

/-! The five `re.sub` repairs of `CVOptimizer._clean_json_response`
(`cv_optimizer.py:222-241`), embedded operationally with Python `re`
semantics: scan left to right, attempt a match at each position, replace
and resume after the match, advance one character on failure.  `\s` is
the Python whitespace class, `\w` is alphanumeric-or-underscore. -/

/-- `re.sub(r',\s*X', 'X')` for a closing character `X` (`}` or `]`):
a comma matches when the next non-whitespace character is `X`. -/
def subTrailingComma (close : Char) : Nat → List Char → List Char
  | 0, l => l
  | _, [] => []
  | f + 1, c :: t =>
      if c = ',' then
        match t.dropWhile pyWs with
        | d :: rest =>
            if d = close then close :: subTrailingComma close f rest
            else c :: subTrailingComma close f t
        | [] => c :: subTrailingComma close f t
      else c :: subTrailingComma close f t

/-- `re.sub(r'}\s*{', '},{')`. -/
def subBraceBrace : Nat → List Char → List Char
  | 0, l => l
  | _, [] => []
  | f + 1, c :: t =>
      if c = '}' then
        match t.dropWhile pyWs with
        | '{' :: rest => '}' :: ',' :: '{' :: subBraceBrace f rest
        | _ => c :: subBraceBrace f t
      else c :: subBraceBrace f t

/-- `re.sub(r'"\s*"', '","')`. -/
def subQuoteQuote : Nat → List Char → List Char
  | 0, l => l
  | _, [] => []
  | f + 1, c :: t =>
      if c = '"' then
        match t.dropWhile pyWs with
        | '"' :: rest => '"' :: ',' :: '"' :: subQuoteQuote f rest
        | _ => c :: subQuoteQuote f t
      else c :: subQuoteQuote f t

/-- Python `\w` (ASCII fragment). -/
def isWordChar (c : Char) : Bool :=
  c.isAlphanum || c = '_'

/-- `re.sub(r'(\w+):', r'"\1":')`: a maximal word run directly followed
by a colon is wrapped in quotes.  A run not followed by a colon can
contain no match start (every suffix of it is followed by the same
non-colon character), so the scan resumes after it. -/
def subQuoteKeys : Nat → List Char → List Char
  | 0, l => l
  | _, [] => []
  | f + 1, c :: t =>
      if isWordChar c then
        let run := (c :: t).takeWhile isWordChar
        match (c :: t).drop run.length with
        | ':' :: rest => '"' :: (run ++ '"' :: ':' :: subQuoteKeys f rest)
        | after => run ++ subQuoteKeys f after
      else c :: subQuoteKeys f t

/-- Character class `[^",\[\]\{\}]` of the value-quoting pattern. -/
def valClass (c : Char) : Bool :=
  !(c = '"' || c = ',' || c = '[' || c = ']' || c = '{' || c = '}')

/-- Closing class `[,\]\}]` of the value-quoting pattern. -/
def isCloser (c : Char) : Bool :=
  c = ',' || c = ']' || c = '}'

/-- `re.sub(r':\s*([^",\[\]\{\}][^",\[\]\{\}]*?)\s*([,\]\}])', r': "\1"\2')`.
At a colon, the backtracking engine matches exactly when the maximal run
of class characters after the colon is non-empty and ends at a closer;
the captured group is that run stripped of surrounding whitespace (or its
last whitespace character when the run is all whitespace, since the lazy
group must be non-empty). -/
def subQuoteValues : Nat → List Char → List Char
  | 0, l => l
  | _, [] => []
  | f + 1, c :: t =>
      if c = ':' then
        let region := t.takeWhile valClass
        match t.drop region.length with
        | k :: rest =>
            if isCloser k && !region.isEmpty then
              let core := pyStrip region
              let grp := if core.isEmpty then [(region.getLast?).getD ' '] else core
              ':' :: ' ' :: '"' :: (grp ++ '"' :: k :: subQuoteValues f rest)
            else c :: subQuoteValues f t
        | [] => c :: subQuoteValues f t
      else c :: subQuoteValues f t

/-- `CVOptimizer._clean_json_response` (`cv_optimizer.py:187-247`):
unlike the analyzer's variant it raises `ValueError` on an empty reply,
on a reply without a brace-delimited span, and on a bad shape after
cleaning, and it applies the aggressive regex repairs unconditionally. -/
def clean_json_response (response : List Char) : Except String (List Char) :=
  if (pyStrip response).isEmpty then .error "Empty response received from API"
  else
    let r0 := pyStrip response
    let r1 :=
      if "```".toList.isPrefixOf r0 then
        let lines := splitLines r0
        let lines :=
          match lines with
          | first :: rest => if "```".toList.isPrefixOf first then rest else lines
          | [] => lines
        let lines :=
          match lines.getLast? with
          | some last => if pyStrip last = "```".toList then lines.dropLast else lines
          | none => lines
        joinLines lines
      else r0
    match pyFind '{' r1, pyRFind '}' r1 with
    | some s, some e =>
        if e ≤ s then .error "No valid JSON object found in response"
        else
          let r2 := pyStrip ((r1.drop s).take (e + 1 - s))
          let r3 := subTrailingComma '}' r2.length r2
          let r4 := subTrailingComma ']' r3.length r3
          let r5 := subBraceBrace r4.length r4
          let r6 := subQuoteQuote r5.length r5
          let r7 := subQuoteKeys r6.length r6
          let r8 := subQuoteValues r7.length r7
          let r9 := pyReplace "```json".toList [] r8
          let r10 := pyReplace "```".toList [] r9
          if r10.head? = some '{' && r10.getLast? = some '}' then .ok r10
          else .error "Invalid JSON structure after cleaning"
    | _, _ => .error "No valid JSON object found in response"

/-- The response-processing stage of `CVOptimizer.optimize_comprehensive`
(`cv_optimizer.py:61-71`).  The `try` block catches only
`json.JSONDecodeError`; the plain `ValueError`s raised by
`_clean_json_response` are *not* instances of it (the subclassing goes
the other way), so they escape as `Except.error` here, while a cleaned
reply that still fails `json.loads` yields the
`{error, raw_response}` envelope. -/
def optimize_comprehensive (response : List Char) : Except String JVal :=
  match clean_json_response response with
  | .error e => .error e
  | .ok cleaned =>
      match json_loadsL cleaned with
      | some result => .ok result
      | none => .ok (.obj
          [("error", .str "JSON Parse Error"),
           ("raw_response", .str ⟨response⟩)])

end CVOptimizer

namespace CoverLetterGenerator

/-- `CoverLetterGenerator._clean_json_response`
(`cover_letter_gen.py:97-124`): strip, drop fences, slice to the
outermost braces when present; no repairs and no raising. -/
def clean_json_response (response : List Char) : List Char :=
  let r0 := pyStrip response
  let r1 :=
    if "```".toList.isPrefixOf r0 then
      let lines := splitLines r0
      let lines :=
        match lines with
        | first :: rest => if "```".toList.isPrefixOf first then rest else lines
        | [] => lines
      let lines :=
        match lines.getLast? with
        | some last => if pyStrip last = "```".toList then lines.dropLast else lines
        | none => lines
      joinLines lines
    else r0
  let r2 :=
    match pyFind '{' r1, pyRFind '}' r1 with
    | some s, some e => if s < e then (r1.drop s).take (e + 1 - s) else r1
    | _, _ => r1
  pyStrip r2

/-- The response-processing stage of `CoverLetterGenerator.generate`
(`cover_letter_gen.py:70-81`): clean, `json.loads`, and return the parsed
mapping unchanged; a parse failure raises `ValueError`.  `generate` never
calls `_parse_cover_letter_response`, so no `word_count`/`tone_matched`
synthesis happens on this path. -/
def generate (response : List Char) : Except String JVal :=
  match json_loadsL (clean_json_response response) with
  | some result => .ok result
  | none => .error "Failed to parse cover letter response"

/-- `CoverLetterGenerator._parse_cover_letter_response`
(`cover_letter_gen.py:126-155`), which does synthesize the metadata: an
absent `cover_letter` becomes `""`, an absent `word_count` becomes
`len(result.get('cover_letter', '').split())`, an absent `tone_matched`
becomes `True`.  A non-mapping parse result makes the membership test or
item assignment raise (`TypeError`), and a non-string `cover_letter`
value makes `.split()` raise (`AttributeError`); neither is caught by the
`except json.JSONDecodeError` clause. -/
def parse_cover_letter_response (response : List Char) : Except String JVal :=
  match json_loadsL (clean_json_response response) with
  | none => .error "Failed to parse cover letter response"
  | some (.obj fs) =>
      let r1 := if (getk fs "cover_letter").isSome then fs
                else setk fs "cover_letter" (.str "")
      match getk r1 "word_count" with
      | some _ =>
          let r3 := if (getk r1 "tone_matched").isSome then r1
                    else setk r1 "tone_matched" (.bool true)
          .ok (.obj r3)
      | none =>
          match (getk r1 "cover_letter").getD (.str "") with
          | .str letter =>
              let r2 := setk r1 "word_count" (.num (pySplitCount letter.toList))
              let r3 := if (getk r2 "tone_matched").isSome then r2
                        else setk r2 "tone_matched" (.bool true)
              .ok (.obj r3)
          | _ => .error "AttributeError"
  | some _ => .error "TypeError"

end CoverLetterGenerator

namespace Orchestrator

/-- `analysis.get(key, default)`; Python raises `AttributeError` when the
receiver is not a dict. -/
def pyGetD (v : JVal) (key : String) (dflt : JVal) : Except String JVal :=
  match v with
  | .obj fs => .ok ((getk fs key).getD dflt)
  | _ => .error "AttributeError"

/-- `[k.get('keyword') for k in lst if k.get('keyword')]`
(`workflow_orchestrator.py:68-69`). -/
def extractSkills (lst : JVal) : Except String (List JVal) :=
  match lst with
  | .arr ks =>
      ks.foldr
        (fun k acc => do
          let rest ← acc
          match k with
          | .obj kf =>
              let v := (getk kf "keyword").getD .null
              pure (if v.truthy then v :: rest else rest)
          | _ => Except.error "AttributeError")
        (pure [])
  | _ => .error "TypeError"

/-- `CVWorkflowOrchestrator.optimize_cv_for_job`
(`workflow_orchestrator.py:23-74`), parameterised by the three raw LLM
replies (each stage's transport call is abstracted into its reply; the
candidate/job extraction helpers only build the cover-letter prompt and
are absorbed into `coverReply`).  No stage is wrapped in a handler, so
any exception of a stage escapes the workflow. -/
def optimize_cv_for_job (analyzerReply optimizerReply coverReply : List Char)
    (generate_cover_letter : Bool) : Except String JVal := do
  let analysis ← CVAnalyzer.analyze analyzerReply
  let optimized ← CVOptimizer.optimize_comprehensive optimizerReply
  let cover ←
    if generate_cover_letter then CoverLetterGenerator.generate coverReply
    else pure JVal.null
  let ka ← pyGetD analysis "keyword_analysis" (.obj [])
  let matched ← pyGetD ka "matched_keywords" (.arr [])
  let missing ← pyGetD ka "missing_critical" (.arr [])
  let matchingSkills ← extractSkills matched
  let missingSkills ← extractSkills missing
  let ats ← pyGetD analysis "ats_score" (.num 0)
  let recommendation ← pyGetD analysis "summary" (.str "")
  pure (.obj
    [("analysis", analysis),
     ("optimized_cv", optimized),
     ("cover_letter", cover),
     ("ats_score", ats),
     ("matching_skills", .arr matchingSkills),
     ("missing_skills", .arr missingSkills),
     ("recommendation", recommendation)])

end Orchestrator

/-! ## Transport client and configuration (`cerebras_client.py`,
`resume.py:1074-1114`) -/

/-- An environment snapshot for `os.getenv`. -/
def Env := List (String × String)

/-- `os.getenv(name)`. -/
def getenv (env : Env) (name : String) : Option String :=
  (List.find? (fun kv => kv.1 = name) env).map (fun kv => kv.2)

/-- `os.getenv(name, default)`. -/
def getenvD (env : Env) (name dflt : String) : String :=
  (getenv env name).getD dflt

/-- Python `a or b` on optional strings (`None` and `""` are falsy). -/
def orStr (a b : Option String) : Option String :=
  match a with
  | some s => if s = "" then b else some s
  | none => b

/-- Truthiness of an optional string. -/
def truthyStr (a : Option String) : Bool :=
  match a with
  | some s => s ≠ ""
  | none => false

namespace CerebrasClient

/-- `CerebrasClient.__init__` (`cerebras_client.py:15-38`): resolve the
key, base and model from arguments and environment; raise `ValueError`
when the resolved key is falsy.  There is no local-provider exception of
any kind in this constructor. -/
def init (api_key api_base model : Option String) (env : Env) :
    Except String (String × String × String) :=
  let key := orStr api_key (getenv env "CEREBRAS_API_KEY")
  let base := (orStr api_base (some (getenvD env "CEREBRAS_API_BASE"
    "https://api.cerebras.ai/v1"))).getD ""
  let mdl := (orStr model (some (getenvD env "CEREBRAS_MODEL"
    "gpt-oss-120b"))).getD ""
  if truthyStr key then .ok (key.getD "", base, mdl)
  else .error "CEREBRAS_API_KEY not found. Set it in .env file or pass as parameter."

/-- An HTTP response as seen by `chat_completion`: status code, headers,
the JSON body when `response.json()` would succeed, and the raw text. -/
structure HttpResponse where
  status : Nat
  headers : List (String × String)
  body : Option JVal
  text : String

/-- `response.headers.get(key, default)` — requests headers are a
case-insensitive mapping. -/
def headerGetD (hs : List (String × String)) (key dflt : String) : String :=
  match List.find? (fun kv => pyLower kv.1 = pyLower key) hs with
  | some kv => kv.2
  | none => dflt

/-- Exceptions that can arise inside the `try` of `chat_completion`,
keyed by which `except` clause of `cerebras_client.py:125-151` would
catch them. -/
inductive PyExc where
  | valueError (msg : String)
  | httpError (msg : String)
  | exc (msg : String)

/-- `CerebrasClient._extract_error_detail` (`cerebras_client.py:184-195`).
The `str(error)` renderings of non-string payloads are not modelled
(no theorem exercises the 400 branch). -/
def extract_error_detail (resp : HttpResponse) : String :=
  match resp.body with
  | some (.obj fs) =>
      (match getk fs "error" with
       | some (.obj ef) =>
           (match getk ef "message" with
            | some (.str m) => m
            | _ => resp.text)
       | some _ => resp.text
       | none => resp.text)
  | _ => resp.text

/-- The response-handling part of `CerebrasClient.chat_completion`
(`cerebras_client.py:96-123`), inside the `try`: classify the status
code, then parse and validate the payload and extract
`choices[0].message.content`.  Every raise here is a plain
`Exception(...)` except the `ValueError`s of `response.json()` and
`_validate_response_structure`; unhandled 4xx statuses raise a requests
`HTTPError` through `raise_for_status` (its message, built from reason
and URL, is not modelled — no theorem exercises that branch, nor the
non-dict/ non-string payload shapes modelled coarsely below). -/
def chat_completion_inner (resp : HttpResponse) : Except PyExc String :=
  if resp.status = 401 then
    .error (.exc "Cerebras API authentication failed. Check your API key.")
  else if resp.status = 429 then
    .error (.exc ("Rate limit exceeded. Retry after " ++
      headerGetD resp.headers "Retry-After" "60" ++ " seconds."))
  else if resp.status = 400 then
    .error (.exc ("Bad request: " ++ extract_error_detail resp))
  else if resp.status = 403 then
    .error (.exc "Access forbidden. Check your API permissions.")
  else if resp.status = 404 then
    .error (.exc "API endpoint not found. Check your API base URL.")
  else if resp.status ≥ 500 then
    .error (.exc ("Cerebras API server error: " ++ toString resp.status))
  else if 400 ≤ resp.status && resp.status < 500 then
    .error (.httpError "client error")
  else
    match resp.body with
    | none => .error (.valueError "Expecting value")
    | some (.obj fs) =>
        (match getk fs "choices" with
         | none => .error (.valueError "Response missing 'choices' field")
         | some (.arr (choice :: _)) =>
             (match choice with
              | .obj cf =>
                  (match getk cf "message" with
                   | none => .error (.valueError "Response choice missing 'message' field")
                   | some (.obj mf) =>
                       (match getk mf "content" with
                        | none => .error (.valueError "Response message missing 'content' field")
                        | some (.str content) =>
                            if content = "" then
                              .error (.exc "Empty response received from Cerebras API")
                            else .ok content
                        | some _ => .error (.exc "unmodelled non-string content"))
                   | some _ => .error (.exc "unmodelled non-dict message"))
              | _ => .error (.exc "unmodelled non-dict choice"))
         | some _ => .error (.valueError "Response 'choices' must be a non-empty list"))
    | some _ => .error (.valueError "Response is not a valid JSON object")

/-- `CerebrasClient.chat_completion`'s visible behaviour: the result of
the `try` body routed through the `except` chain
(`cerebras_client.py:125-151`).  A plain `Exception` raised inside the
`try` — including every status-classification raise — is caught by the
final `except Exception` clause and re-raised with the
`"Cerebras API error: "` prefix. -/
def chat_completion (resp : HttpResponse) : Except String String :=
  match chat_completion_inner resp with
  | .ok s => .ok s
  | .error (.valueError m) => .error ("Invalid JSON response from Cerebras API: " ++ m)
  | .error (.httpError m) => .error ("Cerebras API HTTP error: " ++ m)
  | .error (.exc m) => .error ("Cerebras API error: " ++ m)

end CerebrasClient

namespace ResumeRouter

/-- The resolved LLM configuration of the `optimize_resume` route. -/
structure LlmConfig where
  api_key : Option String
  api_base_url : String
  model_name : String
  is_local_llm : Bool
  enable_local_fallback : Bool

/-- `provider` at `resume.py:1074-1075`. -/
def resolved_provider (env : Env) : String :=
  pyLower ((orStr (getenv env "API_TYPE")
    (orStr (getenv env "LLM_PROVIDER") (some ""))).getD "")

/-- `enable_local_fallback` at `resume.py:1076-1077`. -/
def resolved_enable_local_fallback (env : Env) : Bool :=
  pyLower (getenvD env "ENABLE_LOCAL_LLM_FALLBACK" "false") = "true"

/-- `api_key` after the precedence chain and the Cerebras override
(`resume.py:1079-1097`). -/
def resolved_key (env : Env) : Option String :=
  if truthyStr (getenv env "CEREBRAS_API_KEY") then getenv env "CEREBRAS_API_KEY"
  else orStr (getenv env "API_KEY")
    (orStr (getenv env "OPENAI_API_KEY") (getenv env "CEREBRAS_API_KEY"))

/-- `api_base_url` after the precedence chain, the Cerebras override and
the Ollama default (`resume.py:1083-1099`). -/
def resolved_base (env : Env) : Option String :=
  let apiBaseUrl := orStr (getenv env "API_BASE")
    (orStr (getenv env "OLLAMA_BASE_URL") (getenv env "OLLAMA_HOST"))
  if truthyStr (getenv env "CEREBRAS_API_KEY") then some "https://api.cerebras.ai/v1"
  else if resolved_provider env = "ollama" && !truthyStr apiBaseUrl then
    some "http://localhost:11434"
  else apiBaseUrl

/-- `model_name` (`resume.py:1088-1096`). -/
def resolved_model (env : Env) : String :=
  if truthyStr (getenv env "CEREBRAS_API_KEY") then
    getenvD env "CEREBRAS_MODEL_NAME" "llama3.3-70b"
  else getenvD env "MODEL_NAME" "mistral:7b-instruct-v0.3-q4_K_M"

/-- `is_local_llm` (`resume.py:1101-1105`). -/
def resolved_is_local (env : Env) : Bool :=
  truthyStr (resolved_base env) &&
    (occursIn "localhost".toList (((resolved_base env).getD "").toList) ||
     occursIn "127.0.0.1".toList (((resolved_base env).getD "").toList) ||
     occursIn "11434".toList (((resolved_base env).getD "").toList))

/-- The provider-resolution block of `optimize_resume`
(`resume.py:1074-1114`): pick key, base URL and model from the
environment precedence chains; force Cerebras whenever a Cerebras key is
present; detect a local provider by `localhost`/`127.0.0.1`/`11434`
occurring in the base URL; raise (`HTTPException` 500) only when no base
URL resolved; substitute the dummy key `"ollama"` when the provider is
local and no key resolved.  Nothing here raises for a missing key on a
non-local base URL. -/
def resolve_llm_config (env : Env) : Except String LlmConfig :=
  if !truthyStr (resolved_base env) then
    .error "LLM API base URL not configured. Set API_BASE (OpenAI-compatible) or OLLAMA_BASE_URL for local Ollama."
  else
    .ok { api_key := if resolved_is_local env && !truthyStr (resolved_key env) then
            some "ollama" else resolved_key env,
          api_base_url := (resolved_base env).getD "",
          model_name := resolved_model env,
          is_local_llm := resolved_is_local env,
          enable_local_fallback := resolved_enable_local_fallback env }

/-- Placeholder person synthesized by `sanitize_for_pydantic` when
`user_information` is missing or not a mapping (`resume.py:1261-1270`). -/
def placeholder_user_information : List (String × JVal) :=
  [("name", .str "Candidate"),
   ("main_job_title", .str "Professional"),
   ("profile_description", .str "Experienced professional."),
   ("email", .str "candidate@example.com"),
   ("experiences", .arr []),
   ("education", .arr []),
   ("skills", .obj [("hard_skills", .arr []), ("soft_skills", .arr [])])]

/-- The sentinel of `resume.py:1277` for each mandatory string field. -/
def mandatory_sentinel (f : String) : JVal :=
  if f = "email" then .str "none@example.com" else .str "None Provided"

/-- One iteration of the loop at `resume.py:1275-1277`. -/
def fix_user_string_step (acc : List (String × JVal)) (f : String) :
    List (String × JVal) :=
  match getk acc f with
  | some v => if v.truthy then acc else setk acc f (mandatory_sentinel f)
  | none => setk acc f (mandatory_sentinel f)

/-- Step 2 of `sanitize_for_pydantic` (`resume.py:1274-1277`): each of
the four mandatory strings that is missing or falsy becomes
`"None Provided"` (`"none@example.com"` for `email`). -/
def fix_user_strings (ui : List (String × JVal)) : List (String × JVal) :=
  ["name", "main_job_title", "profile_description", "email"].foldl
    fix_user_string_step ui

/-- The one-sentence default task list (`resume.py:1290-1292`). -/
def default_four_tasks : JVal :=
  .arr [.str "Responsible for core duties."]

/-- One iteration of the `"Unknown"`-filling loops
(`resume.py:1286-1288` and `resume.py:1300-1302`): presence only, no
falsiness check. -/
def ensure_unknown_step (acc : List (String × JVal)) (f : String) :
    List (String × JVal) :=
  if (getk acc f).isSome then acc else setk acc f (.str "Unknown")

/-- Step 3's per-entry fix (`resume.py:1283-1292`): non-dict entries are
skipped (`continue`); missing string fields become `"Unknown"`;
`four_tasks` becomes the default list when missing, non-list, or empty. -/
def fix_experience : JVal → JVal
  | .obj e =>
      let e1 := ["job_title", "company", "start_date", "end_date"].foldl
        ensure_unknown_step e
      let e2 :=
        match getk e1 "four_tasks" with
        | some (.arr l) => if l.isEmpty then setk e1 "four_tasks" default_four_tasks else e1
        | _ => setk e1 "four_tasks" default_four_tasks
      .obj e2
  | v => v

/-- Step 4's per-entry fix (`resume.py:1297-1302`). -/
def fix_education : JVal → JVal
  | .obj e =>
      .obj (["institution", "degree", "start_date", "end_date"].foldl
        ensure_unknown_step e)
  | v => v

/-- One iteration of the skills-field loop (`resume.py:1307-1309`). -/
def skills_field_step (acc : List (String × JVal)) (f : String) :
    List (String × JVal) :=
  match getk acc f with
  | some (.arr _) => acc
  | _ => setk acc f (.arr [])

/-- Step 5 (`resume.py:1304-1309`): ensure a skills dict with list-typed
`hard_skills` and `soft_skills`. -/
def fix_skills (ui : List (String × JVal)) : List (String × JVal) :=
  let sk :=
    match getk ui "skills" with
    | some (.obj s) => s
    | _ => [("hard_skills", .arr []), ("soft_skills", .arr [])]
  let sk := ["hard_skills", "soft_skills"].foldl skills_field_step sk
  setk ui "skills" (.obj sk)

/-- One iteration of the optional-top-level-field loop
(`resume.py:1312-1314`): a present non-list value is coerced to `[]`;
an absent field stays absent. -/
def optional_list_step (acc : List (String × JVal)) (f : String) :
    List (String × JVal) :=
  match getk acc f with
  | some (.arr _) => acc
  | some _ => setk acc f (.arr [])
  | none => acc

/-- `sanitize_for_pydantic` (`resume.py:1255-1316`).  The Python function
mutates `data` and the alias `ui = data["user_information"]` in place;
the embedding computes the fixed `user_information` value and writes it
back once (same key position, by `setk`), which yields the identical
final dict.  Non-dict input returns `{}` (`resume.py:1257-1258`). -/
def sanitize_for_pydantic : JVal → JVal
  | .obj data =>
      let ui0 :=
        match getk data "user_information" with
        | some (.obj u) => u
        | _ => placeholder_user_information
      let ui1 := fix_user_strings ui0
      let exps :=
        match getk ui1 "experiences" with
        | some (.arr l) => l
        | _ => []
      let ui2 := setk ui1 "experiences" (.arr (exps.map fix_experience))
      let edus :=
        match getk ui2 "education" with
        | some (.arr l) => l
        | _ => []
      let ui3 := setk ui2 "education" (.arr (edus.map fix_education))
      let ui4 := fix_skills ui3
      let d1 := setk data "user_information" (.obj ui4)
      let d2 := ["projects", "certificate", "extra_curricular_activities"].foldl
        optional_list_step d1
      .obj d2
  | _ => .obj []

end ResumeRouter

/-! ## `json.dumps` (default separators)

Used to state the round-trip claim.  Escaping covers the characters that
can occur in this development's values; `ensure_ascii` handling of
non-ASCII characters is not modelled (all concrete values are ASCII). -/

/-- Escape one character as `json.dumps` does. -/
def escapeJChar (c : Char) : List Char :=
  if c = '"' then ['\\', '"']
  else if c = '\\' then ['\\', '\\']
  else if c = '\n' then ['\\', 'n']
  else if c = '\t' then ['\\', 't']
  else if c = '\r' then ['\\', 'r']
  else [c]

/-- Escape a string body. -/
def escapeJ (l : List Char) : List Char :=
  (l.map escapeJChar).flatten

mutual

/-- `json.dumps(v)` with the default `", "` / `": "` separators. -/
def dumps : JVal → List Char
  | .null => 'n' :: "ull".toList
  | .bool b => (if b then "true" else "false").toList
  | .num n => (toString n).toList
  | .str s => '"' :: (escapeJ s.toList ++ ['"'])
  | .arr xs => '[' :: (dumpsElems xs ++ [']'])
  | .obj fs => '{' :: (dumpsFields fs ++ ['}'])

/-- Array elements joined by `", "`. -/
def dumpsElems : List JVal → List Char
  | [] => []
  | [x] => dumps x
  | x :: y :: t => dumps x ++ ',' :: ' ' :: dumpsElems (y :: t)

/-- Object members joined by `", "`. -/
def dumpsFields : List (String × JVal) → List Char
  | [] => []
  | [(k, v)] => '"' :: (escapeJ k.toList ++ '"' :: ':' :: ' ' :: dumps v)
  | (k, v) :: kv :: t =>
      ('"' :: (escapeJ k.toList ++ '"' :: ':' :: ' ' :: dumps v)) ++
        ',' :: ' ' :: dumpsFields (kv :: t)

end

/-! ## Association-list lemmas shared by the proofs -/

theorem getk_setk_self (l : List (String × JVal)) (k : String) (v : JVal) :
    getk (setk l k v) k = some v := by
  induction l with
  | nil => simp [getk, setk]
  | cons kv t ih =>
      obtain ⟨k0, v0⟩ := kv
      by_cases h : k0 = k
      · simp [getk, setk, h]
      · simp [getk, setk, h, ih]

theorem getk_setk_ne (l : List (String × JVal)) (k k' : String) (v : JVal)
    (h : k ≠ k') : getk (setk l k v) k' = getk l k' := by
  induction l with
  | nil => simp [getk, setk, h]
  | cons kv t ih =>
      obtain ⟨k0, v0⟩ := kv
      by_cases h0 : k0 = k
      · subst h0
        simp [getk, setk, h]
      · simp [getk, setk, h0, ih]

theorem setk_of_getk (l : List (String × JVal)) (k : String) (v : JVal)
    (h : getk l k = some v) : setk l k v = l := by
  induction l with
  | nil => simp [getk] at h
  | cons kv t ih =>
      obtain ⟨k0, v0⟩ := kv
      by_cases h0 : k0 = k
      · subst h0
        simp [getk] at h
        simp [setk, h]
      · simp [getk, h0] at h
        simp [setk, h0, ih h]

/-- A fold whose step touches only its own key preserves the binding of
any key outside the folded list. -/
theorem getk_foldl_not_mem {step : List (String × JVal) → String → List (String × JVal)}
    (hstep : ∀ acc f g, f ≠ g → getk (step acc f) g = getk acc g)
    (keys : List String) (acc : List (String × JVal)) (g : String) (hg : g ∉ keys) :
    getk (keys.foldl step acc) g = getk acc g := by
  induction keys generalizing acc with
  | nil => rfl
  | cons f t ih =>
      have hne : f ≠ g := fun h => hg (h ▸ List.mem_cons_self f t)
      have ht : g ∉ t := fun h => hg (List.mem_cons_of_mem f h)
      simp only [List.foldl]
      rw [ih (step acc f) ht, hstep acc f g hne]

/-- A fold whose step establishes `P` at its own key and touches only
its own key yields `P` at every folded key. -/
theorem foldl_getk_post {P : Option JVal → Prop}
    {step : List (String × JVal) → String → List (String × JVal)}
    (hne : ∀ acc f g, f ≠ g → getk (step acc f) g = getk acc g)
    (hpost : ∀ acc f, P (getk (step acc f) f)) :
    ∀ (keys : List String) (acc : List (String × JVal)) (f : String), f ∈ keys →
      P (getk (keys.foldl step acc) f) := by
  intro keys
  induction keys with
  | nil => intro acc f h; cases h
  | cons g t ih =>
      intro acc f hf
      by_cases hft : f ∈ t
      · simpa [List.foldl] using ih (step acc g) f hft
      · have hfg : f = g := by
          cases List.mem_cons.mp hf with
          | inl h => exact h
          | inr h => exact absurd h hft
        subst hfg
        simp only [List.foldl]
        rw [getk_foldl_not_mem hne t (step acc f) f hft]
        exact hpost acc f

/-- A fold is the identity when every folded key already satisfies the
step's no-op condition. -/
theorem foldl_noop {Q : Option JVal → Prop}
    {step : List (String × JVal) → String → List (String × JVal)}
    (hnoop : ∀ acc f, Q (getk acc f) → step acc f = acc) :
    ∀ (keys : List String) (acc : List (String × JVal)),
      (∀ f ∈ keys, Q (getk acc f)) → keys.foldl step acc = acc := by
  intro keys
  induction keys with
  | nil => intro acc _; rfl
  | cons g t ih =>
      intro acc hall
      simp only [List.foldl]
      rw [hnoop acc g (hall g (List.mem_cons_self g t))]
      exact ih acc (fun f hf => hall f (List.mem_cons_of_mem g hf))

namespace ResumeRouter

/-! Step lemmas for the sanitizer's four loop bodies. -/

theorem fix_user_string_step_ne (acc : List (String × JVal)) (f g : String)
    (h : f ≠ g) : getk (fix_user_string_step acc f) g = getk acc g := by
  unfold fix_user_string_step
  cases hv : getk acc f with
  | none =>
      show getk (setk acc f (mandatory_sentinel f)) g = getk acc g
      exact getk_setk_ne _ _ _ _ h
  | some v =>
      show getk (if v.truthy = true then acc else setk acc f (mandatory_sentinel f)) g =
        getk acc g
      cases htr : v.truthy with
      | false =>
          simp only [Bool.false_eq_true, if_false]
          exact getk_setk_ne _ _ _ _ h
      | true => simp

theorem fix_user_string_step_bad (acc : List (String × JVal)) (f : String)
    (h : missingOrFalsy (getk acc f) = true) :
    getk (fix_user_string_step acc f) f = some (mandatory_sentinel f) := by
  unfold fix_user_string_step
  cases hv : getk acc f with
  | none =>
      show getk (setk acc f (mandatory_sentinel f)) f = some (mandatory_sentinel f)
      exact getk_setk_self _ _ _
  | some v =>
      rw [hv] at h
      have htr : v.truthy = false := by simpa [missingOrFalsy] using h
      show getk (if v.truthy = true then acc else setk acc f (mandatory_sentinel f)) f =
        some (mandatory_sentinel f)
      rw [htr]
      simp only [Bool.false_eq_true, if_false]
      exact getk_setk_self _ _ _

theorem mandatory_sentinel_truthy (f : String) :
    (mandatory_sentinel f).truthy = true := by
  unfold mandatory_sentinel
  split
  · rfl
  · rfl

theorem fix_user_string_step_post (acc : List (String × JVal)) (f : String) :
    ∃ v, getk (fix_user_string_step acc f) f = some v ∧ v.truthy = true := by
  unfold fix_user_string_step
  cases hv : getk acc f with
  | none =>
      show ∃ v, getk (setk acc f (mandatory_sentinel f)) f = some v ∧ v.truthy = true
      exact ⟨_, getk_setk_self _ _ _, mandatory_sentinel_truthy f⟩
  | some v =>
      show ∃ w, getk (if v.truthy = true then acc
        else setk acc f (mandatory_sentinel f)) f = some w ∧ w.truthy = true
      cases htr : v.truthy with
      | false =>
          simp only [Bool.false_eq_true, if_false]
          exact ⟨_, getk_setk_self _ _ _, mandatory_sentinel_truthy f⟩
      | true =>
          simp only [if_true]
          exact ⟨v, hv, htr⟩

theorem fix_user_string_step_noop (acc : List (String × JVal)) (f : String)
    (h : ∃ v, getk acc f = some v ∧ v.truthy = true) :
    fix_user_string_step acc f = acc := by
  obtain ⟨v, hv, ht⟩ := h
  unfold fix_user_string_step
  rw [hv]
  show (if v.truthy = true then acc else setk acc f (mandatory_sentinel f)) = acc
  rw [ht]
  simp

theorem ensure_unknown_step_ne (acc : List (String × JVal)) (f g : String)
    (h : f ≠ g) : getk (ensure_unknown_step acc f) g = getk acc g := by
  unfold ensure_unknown_step
  split
  · rfl
  · exact getk_setk_ne _ _ _ _ h

theorem ensure_unknown_step_post (acc : List (String × JVal)) (f : String) :
    (getk (ensure_unknown_step acc f) f).isSome = true := by
  unfold ensure_unknown_step
  cases hv : getk acc f with
  | none =>
      simp only [hv, Option.isSome_none, Bool.false_eq_true, if_false]
      simp [getk_setk_self]
  | some v => simp [hv]

theorem ensure_unknown_step_noop (acc : List (String × JVal)) (f : String)
    (h : (getk acc f).isSome = true) : ensure_unknown_step acc f = acc := by
  unfold ensure_unknown_step
  rw [h]
  simp

theorem skills_field_step_ne (acc : List (String × JVal)) (f g : String)
    (h : f ≠ g) : getk (skills_field_step acc f) g = getk acc g := by
  unfold skills_field_step
  split
  · rfl
  · exact getk_setk_ne _ _ _ _ h

theorem skills_field_step_post (acc : List (String × JVal)) (f : String) :
    ∃ xs, getk (skills_field_step acc f) f = some (.arr xs) := by
  unfold skills_field_step
  split
  · next xs heq => exact ⟨_, heq⟩
  · exact ⟨[], getk_setk_self _ _ _⟩

theorem skills_field_step_noop (acc : List (String × JVal)) (f : String)
    (h : ∃ xs, getk acc f = some (.arr xs)) : skills_field_step acc f = acc := by
  obtain ⟨xs, hxs⟩ := h
  unfold skills_field_step
  rw [hxs]

theorem optional_list_step_ne (acc : List (String × JVal)) (f g : String)
    (h : f ≠ g) : getk (optional_list_step acc f) g = getk acc g := by
  unfold optional_list_step
  split
  · rfl
  · exact getk_setk_ne _ _ _ _ h
  · rfl

theorem optional_list_step_post (acc : List (String × JVal)) (f : String) :
    getk (optional_list_step acc f) f = none ∨
      ∃ xs, getk (optional_list_step acc f) f = some (.arr xs) := by
  unfold optional_list_step
  cases hv : getk acc f with
  | none =>
      left
      show getk acc f = none
      exact hv
  | some v =>
      cases v with
      | arr xs =>
          right
          exact ⟨xs, show getk acc f = some (.arr xs) from hv⟩
      | null => right; exact ⟨[], getk_setk_self _ _ _⟩
      | bool b => right; exact ⟨[], getk_setk_self _ _ _⟩
      | num n => right; exact ⟨[], getk_setk_self _ _ _⟩
      | str s => right; exact ⟨[], getk_setk_self _ _ _⟩
      | obj fs => right; exact ⟨[], getk_setk_self _ _ _⟩

theorem optional_list_step_noop (acc : List (String × JVal)) (f : String)
    (h : getk acc f = none ∨ ∃ xs, getk acc f = some (.arr xs)) :
    optional_list_step acc f = acc := by
  unfold optional_list_step
  cases h with
  | inl h => rw [h]
  | inr h => obtain ⟨xs, hxs⟩ := h; rw [hxs]

/-- `fix_experience` always leaves a mapping entry with a non-empty
`four_tasks` list. -/
theorem fix_experience_four_tasks (x : JVal) (g : List (String × JVal))
    (h : fix_experience x = .obj g) :
    ∃ ts, getk g "four_tasks" = some (.arr ts) ∧ ts ≠ [] := by
  cases x with
  | obj e =>
      unfold fix_experience at h
      cases hft : getk (["job_title", "company", "start_date", "end_date"].foldl
          ensure_unknown_step e) "four_tasks" with
      | some v =>
          cases v with
          | arr l =>
              by_cases hl : l.isEmpty = true
              · simp only [hft, hl, if_true] at h
                obtain rfl : _ = g := congrArg (fun j => match j with | JVal.obj fs => fs | _ => []) h
                exact ⟨[.str "Responsible for core duties."], getk_setk_self _ _ _, by simp⟩
              · simp only [hft, hl, Bool.false_eq_true, if_false] at h
                obtain rfl : _ = g := congrArg (fun j => match j with | JVal.obj fs => fs | _ => []) h
                exact ⟨l, hft, by simpa using hl⟩
          | null =>
              simp only [hft] at h
              obtain rfl : _ = g := congrArg (fun j => match j with | JVal.obj fs => fs | _ => []) h
              exact ⟨[.str "Responsible for core duties."], getk_setk_self _ _ _, by simp⟩
          | bool b =>
              simp only [hft] at h
              obtain rfl : _ = g := congrArg (fun j => match j with | JVal.obj fs => fs | _ => []) h
              exact ⟨[.str "Responsible for core duties."], getk_setk_self _ _ _, by simp⟩
          | num n =>
              simp only [hft] at h
              obtain rfl : _ = g := congrArg (fun j => match j with | JVal.obj fs => fs | _ => []) h
              exact ⟨[.str "Responsible for core duties."], getk_setk_self _ _ _, by simp⟩
          | str s =>
              simp only [hft] at h
              obtain rfl : _ = g := congrArg (fun j => match j with | JVal.obj fs => fs | _ => []) h
              exact ⟨[.str "Responsible for core duties."], getk_setk_self _ _ _, by simp⟩
          | obj fs =>
              simp only [hft] at h
              obtain rfl : _ = g := congrArg (fun j => match j with | JVal.obj fs => fs | _ => []) h
              exact ⟨[.str "Responsible for core duties."], getk_setk_self _ _ _, by simp⟩
      | none =>
          simp only [hft] at h
          obtain rfl : _ = g := congrArg (fun j => match j with | JVal.obj fs => fs | _ => []) h
          exact ⟨[.str "Responsible for core duties."], getk_setk_self _ _ _, by simp⟩
  | null => simp [fix_experience] at h
  | bool b => simp [fix_experience] at h
  | num n => simp [fix_experience] at h
  | str s => simp [fix_experience] at h
  | arr xs => simp [fix_experience] at h

end ResumeRouter

/-! ## Claim theorems -/

/-- C1: the claim says that for an optimizer reply with no JSON braces at
all, the workflow still returns a complete `WorkflowResult` carrying the
`{error: "JSON Parse Error", raw_response: …}` envelope.  The code
disagrees: `_clean_json_response` raises a plain `ValueError`
("No valid JSON object found in response"), which is not a
`json.JSONDecodeError`, so `optimize_comprehensive`'s handler misses it
and the whole workflow raises even though the Analyze stage succeeded —
contradicting the source's own comment that a JSON failure is returned as
the raw string for the caller to handle.  This theorem evaluates the code
at such a failing input. -/
theorem c1_workflow_raises_on_braceless_optimizer_reply :
    CVAnalyzer.analyze "\x7b\"ats_score\": 72, \"summary\": \"Good fit\"\x7d".toList =
      .ok (.obj [("ats_score", .num 72), ("summary", .str "Good fit")]) ∧
    CVOptimizer.optimize_comprehensive "I cannot help with that.".toList =
      .error "No valid JSON object found in response" ∧
    Orchestrator.optimize_cv_for_job "\x7b\"ats_score\": 72, \"summary\": \"Good fit\"\x7d".toList
      "I cannot help with that.".toList "".toList false =
      .error "No valid JSON object found in response" :=
  ⟨rfl, rfl, rfl⟩

/-- C2 (counterexample): on the input `"ats_score: 500"` the strict parse
fails, the fallback fires, and the extracted score `500` is stored
verbatim — `_fallback_parse` applies no clamping, so the returned
`ats_score` is not in `[0, 100]` as the claim states. -/
theorem c2_counterexample_unclamped_ats_score :
    CVAnalyzer.analyze "ats_score: 500".toList =
      .ok (.obj (setk CVAnalyzer.fallback_base "ats_score" (.num 500))) ∧
    getk (setk CVAnalyzer.fallback_base "ats_score" (.num 500)) "ats_score" =
      some (.num 500) ∧
    ¬((500 : Int) ≤ 100) :=
  ⟨rfl, rfl, by decide⟩

/-- Helper: `analyze` takes the fallback branch exactly when the strict
parse fails. -/
theorem analyze_of_parse_failure (r : List Char)
    (h : json_loadsL (CVAnalyzer.clean_json_response r) = none) :
    CVAnalyzer.analyze r = .ok (CVAnalyzer.fallback_parse r) := by
  unfold CVAnalyzer.analyze
  rw [h]

/-- Helper: `_fallback_parse` always yields a mapping whose `ats_score`
is the regex-extracted number taken verbatim, or `50` when absent. -/
theorem fallback_parse_obj_ats (r : List Char) :
    ∃ fs, CVAnalyzer.fallback_parse r = .obj fs ∧
      getk fs "ats_score" = some (.num (((searchAts r).getD 50 : Nat) : Int)) := by
  unfold CVAnalyzer.fallback_parse
  refine ⟨_, rfl, ?_⟩
  have h1 : getk
      (match searchAts r with
       | some n => setk CVAnalyzer.fallback_base "ats_score" (.num (n : Int))
       | none => CVAnalyzer.fallback_base) "ats_score" =
      some (.num (((searchAts r).getD 50 : Nat) : Int)) := by
    cases hn : searchAts r with
    | some n => exact getk_setk_self _ _ _
    | none => rfl
  generalize ha1 :
    (match searchAts r with
     | some n => setk CVAnalyzer.fallback_base "ats_score" (.num (n : Int))
     | none => CVAnalyzer.fallback_base) = a1 at h1 ⊢
  have h2 : getk
      (if ((findAllKV "keyword".toList r).take 10).isEmpty then a1
       else match getk a1 "keyword_analysis" with
         | some (.obj ka) =>
             setk a1 "keyword_analysis" (.obj (setk ka "matched_keywords"
               (.arr (((findAllKV "keyword".toList r).take 10).map (fun kw => .obj
                 [("keyword", .str ⟨kw⟩),
                  ("jd_mentions", .num 1),
                  ("cv_mentions", .num 1)])))))
         | _ => a1) "ats_score" =
      some (.num (((searchAts r).getD 50 : Nat) : Int)) := by
    split
    · exact h1
    · split
      · rw [getk_setk_ne _ _ _ _ (by decide)]
        exact h1
      · exact h1
  generalize (if ((findAllKV "keyword".toList r).take 10).isEmpty then a1
       else match getk a1 "keyword_analysis" with
         | some (.obj ka) =>
             setk a1 "keyword_analysis" (.obj (setk ka "matched_keywords"
               (.arr (((findAllKV "keyword".toList r).take 10).map (fun kw => .obj
                 [("keyword", .str ⟨kw⟩),
                  ("jd_mentions", .num 1),
                  ("cv_mentions", .num 1)])))))
         | _ => a1) = a2 at h2 ⊢
  cases hs : searchKV "summary".toList r with
  | some s =>
      rw [getk_setk_ne _ _ _ _ (by decide)]
      exact h2
  | none => exact h2

/-- C2 (amended): the analyzer's clean-then-parse-then-fallback pipeline
never raises — it returns the parsed mapping, or the fallback mapping
whose `ats_score` is the first regex-extracted unsigned integer taken
verbatim (not clamped), `50` when no score is found. -/
theorem c2_parse_structured_total_unclamped (r : List Char) :
    (∃ j, CVAnalyzer.analyze r = .ok j) ∧
    (json_loadsL (CVAnalyzer.clean_json_response r) = none →
      ∃ fs, CVAnalyzer.analyze r = .ok (.obj fs) ∧
        getk fs "ats_score" = some (.num (((searchAts r).getD 50 : Nat) : Int))) := by
  constructor
  · unfold CVAnalyzer.analyze
    cases json_loadsL (CVAnalyzer.clean_json_response r) with
    | some a => exact ⟨a, rfl⟩
    | none => exact ⟨CVAnalyzer.fallback_parse r, rfl⟩
  · intro hfail
    obtain ⟨fs, hfs, hats⟩ := fallback_parse_obj_ats r
    exact ⟨fs, by rw [analyze_of_parse_failure r hfail, hfs], hats⟩

/-- Helper: a `str.replace` with a pattern that does not occur is the
identity. -/
theorem pyReplaceFuel_of_not_occurs (pat rep : List Char) :
    ∀ (fuel : Nat) (l : List Char), occursIn pat l = false → l.length ≤ fuel →
      pyReplaceFuel pat rep fuel l = l := by
  intro fuel
  induction fuel with
  | zero =>
      intro l h hlen
      cases l with
      | nil => rfl
      | cons c t => simp at hlen
  | succ f ih =>
      intro l h hlen
      cases l with
      | nil => rfl
      | cons c t =>
          unfold occursIn at h
          rw [Bool.or_eq_false_iff] at h
          unfold pyReplaceFuel
          rw [h.1]
          simp only [Bool.false_and, Bool.false_eq_true, if_false]
          rw [ih t h.2 (by simpa using Nat.le_of_succ_le_succ hlen)]

/-- `str.replace` identity on pattern-free text. -/
theorem pyReplace_of_not_occurs (pat rep l : List Char)
    (h : occursIn pat l = false) : pyReplace pat rep l = l :=
  pyReplaceFuel_of_not_occurs pat rep l.length l h (Nat.le_refl _)

/-- `str.strip` is the identity when both ends are non-whitespace. -/
theorem pyStrip_eq_self {l : List Char}
    (h1 : ∀ c, l.head? = some c → pyWs c = false)
    (h2 : ∀ c, l.getLast? = some c → pyWs c = false) : pyStrip l = l := by
  unfold pyStrip
  have e1 : l.dropWhile pyWs = l := by
    cases l with
    | nil => rfl
    | cons c t =>
        rw [List.dropWhile_cons, h1 c rfl]
        simp
  rw [e1]
  have e2 : l.reverse.dropWhile pyWs = l.reverse := by
    cases hr : l.reverse with
    | nil => rfl
    | cons c t =>
        have hc : l.getLast? = some c := by
          rw [← List.head?_reverse, hr]
          rfl
        rw [List.dropWhile_cons, h2 c hc]
        simp
  rw [e2, List.reverse_reverse]

/-- Helper: on brace-delimited text free of code fences and of the four
repaired substrings, the analyzer's `_clean_json_response` is the
identity. -/
theorem analyzer_clean_eq_self (l : List Char)
    (hhead : l.head? = some '{') (hlast : l.getLast? = some '}')
    (h1 : occursIn ",\n\x7d".toList l = false)
    (h2 : occursIn ", \x7d".toList l = false)
    (h3 : occursIn "\x7d\n    \x7b".toList l = false)
    (h4 : occursIn "\"\n    \"".toList l = false)
    (h5 : occursIn "```json".toList l = false)
    (h6 : occursIn "```".toList l = false) :
    CVAnalyzer.clean_json_response l = l := by
  obtain ⟨t, rfl⟩ : ∃ t, l = '{' :: t := by
    cases l with
    | nil => simp at hhead
    | cons c t =>
        refine ⟨t, ?_⟩
        have : c = '{' := by simpa using hhead
        rw [this]
  have hstrip : pyStrip ('{' :: t) = '{' :: t := by
    apply pyStrip_eq_self
    · intro c hc
      obtain rfl : '{' = c := by simpa using hc
      rfl
    · intro c hc
      rw [hlast] at hc
      obtain rfl : '}' = c := by simpa using hc
      rfl
  have hlen2 : 2 ≤ ('{' :: t).length := by
    cases t with
    | nil => simp at hlast
    | cons d u => simp
  have hfence : "```".toList.isPrefixOf ('{' :: t) = false := by
    simp [List.isPrefixOf]
  have hfind : pyFind '{' ('{' :: t) = some 0 := by
    simp [pyFind, List.findIdx?_cons]
  have hrfind : pyRFind '}' ('{' :: t) = some (('{' :: t).length - 1) := by
    unfold pyRFind
    cases hr : ('{' :: t).reverse with
    | nil => simp at hr
    | cons c u =>
        have hc : c = '}' := by
          have h := hlast
          rw [← List.head?_reverse, hr] at h
          simpa using h
        subst hc
        simp [pyFind, List.findIdx?_cons]
  have hpos : 0 < ('{' :: t).length - 1 := by omega
  unfold CVAnalyzer.clean_json_response
  simp only [hstrip, hfence, Bool.false_eq_true, if_false, hfind, hrfind]
  rw [if_pos hpos]
  have harith : ('{' :: t).length - 1 + 1 - 0 = ('{' :: t).length := by omega
  simp only [List.drop_zero, harith, List.take_length]
  rw [hstrip]
  rw [pyReplace_of_not_occurs _ _ _ h1, pyReplace_of_not_occurs _ _ _ h2,
      pyReplace_of_not_occurs _ _ _ h3, pyReplace_of_not_occurs _ _ _ h4,
      pyReplace_of_not_occurs _ _ _ h5, pyReplace_of_not_occurs _ _ _ h6,
      hstrip]

/-- C3 (counterexample): the claim says the repair heuristics, including
the optimizer's unconditional key/value quoting, never corrupt
already-valid JSON produced by `json.dumps`.  Take `X` to be the
analyzer's own AnalysisResult-shaped fallback skeleton: `json.dumps(X)`
parses back to `X`, yet pushing it through the optimizer's
`_clean_json_response`-then-`json.loads` pipeline yields `X` with
`ats_score` turned from the number `50` into the string `"50"` — a
different mapping. -/
theorem c3_counterexample_optimizer_quoting_corrupts :
    json_loadsL (dumps (.obj CVAnalyzer.fallback_base)) =
      some (.obj CVAnalyzer.fallback_base) ∧
    (match CVOptimizer.clean_json_response (dumps (.obj CVAnalyzer.fallback_base)) with
     | .ok c => json_loadsL c
     | .error _ => none) =
      some (.obj (setk CVAnalyzer.fallback_base "ats_score" (.str "50"))) ∧
    some (JVal.obj (setk CVAnalyzer.fallback_base "ats_score" (.str "50"))) ≠
      some (JVal.obj CVAnalyzer.fallback_base) := by
  refine ⟨rfl, rfl, ?_⟩
  simp [CVAnalyzer.fallback_base, setk]

/-- C3 (amended): the conservative repairs — the analyzer's variant of
`_clean_json_response` — leave any already-valid JSON object text
unchanged provided it is brace-delimited and free of the repaired
substrings and fence markers (as `json.dumps` output with such string
leaves is), so parsing after cleaning returns exactly the original
mapping.  The optimizer's unconditional quoting has no such property
(see the counterexample). -/
theorem c3_conservative_clean_round_trip (l : List Char) (X : JVal)
    (hhead : l.head? = some '{') (hlast : l.getLast? = some '}')
    (h1 : occursIn ",\n\x7d".toList l = false)
    (h2 : occursIn ", \x7d".toList l = false)
    (h3 : occursIn "\x7d\n    \x7b".toList l = false)
    (h4 : occursIn "\"\n    \"".toList l = false)
    (h5 : occursIn "```json".toList l = false)
    (h6 : occursIn "```".toList l = false)
    (hparse : json_loadsL l = some X) :
    CVAnalyzer.clean_json_response l = l ∧
    json_loadsL (CVAnalyzer.clean_json_response l) = some X := by
  have he := analyzer_clean_eq_self l hhead hlast h1 h2 h3 h4 h5 h6
  exact ⟨he, by rw [he, hparse]⟩

/-- C3 (witness for the amended theorem) on the serialization of a small
AnalysisResult-shaped mapping. -/
theorem c3_conservative_clean_round_trip_witness :
    CVAnalyzer.clean_json_response "\x7b\"ats_score\": 72\x7d".toList =
      "\x7b\"ats_score\": 72\x7d".toList ∧
    json_loadsL (CVAnalyzer.clean_json_response "\x7b\"ats_score\": 72\x7d".toList) =
      some (.obj [("ats_score", .num 72)]) :=
  c3_conservative_clean_round_trip "\x7b\"ats_score\": 72\x7d".toList
    (.obj [("ats_score", .num 72)]) rfl rfl rfl rfl rfl rfl rfl rfl rfl

/-- C4 (counterexample): `analyze` does not always return a mapping.
The reply `"42"` contains no brace, so the cleaner leaves it unchanged
(the analyzer's variant slices only when both braces are found);
`json.loads("42")` succeeds, and `analyze` returns the integer `42` —
not an AnalysisResult mapping. -/
theorem c4_counterexample_scalar_reply :
    CVAnalyzer.analyze "42".toList = .ok (.num 42) ∧
    (JVal.num 42).isObj = false :=
  ⟨rfl, rfl⟩

/-- C4 (amended): given any string successfully returned by the
chat-completion call, `analyze` never raises — the strict parse either
succeeds, or the fallback parser, total on strings, supplies the result,
so the source's parse-failure-then-fallback-failure `raise` is
unreachable — and whenever the strict parse fails the returned value is
a mapping (the fallback structure); on strict-parse success the parsed
JSON value is returned as-is, a mapping only when the reply parsed to
one. -/
theorem c4_analyze_total_fallback_mapping (r : List Char) :
    (∃ j, CVAnalyzer.analyze r = .ok j) ∧
    (json_loadsL (CVAnalyzer.clean_json_response r) = none →
      ∃ fs, CVAnalyzer.analyze r = .ok (.obj fs)) := by
  constructor
  · unfold CVAnalyzer.analyze
    cases json_loadsL (CVAnalyzer.clean_json_response r) with
    | some a => exact ⟨a, rfl⟩
    | none => exact ⟨_, rfl⟩
  · intro hfail
    rw [analyze_of_parse_failure r hfail]
    exact ⟨_, rfl⟩

/-- C4 (witness for the amended theorem) on a reply that is nowhere near
JSON, exercising the fallback-mapping branch. -/
theorem c4_analyze_total_fallback_mapping_witness :
    (∃ j, CVAnalyzer.analyze "totally not json".toList = .ok j) ∧
    (json_loadsL (CVAnalyzer.clean_json_response "totally not json".toList) = none →
      ∃ fs, CVAnalyzer.analyze "totally not json".toList = .ok (.obj fs)) :=
  c4_analyze_total_fallback_mapping "totally not json".toList

/-- C5 (counterexample): on HTTP 429 with `Retry-After: 30` (headers are
case-insensitive), what the client raises is a plain generic `Exception`
whose whole content is this message string — there is no typed
`RateLimitError` class carrying a `retry_after_seconds` field anywhere in
the code, and the raise is even re-wrapped by the catch-all clause with
the `"Cerebras API error: "` prefix. -/
theorem c5_counterexample_untyped_rate_limit :
    CerebrasClient.chat_completion ⟨429, [("retry-after", "30")], some (.obj []), "b"⟩ =
      .error "Cerebras API error: Rate limit exceeded. Retry after 30 seconds." := by rfl

/-- C5 (amended): on HTTP 429 `chat_completion` raises a generic
`Exception` whose message interpolates the case-insensitively read
`Retry-After` header (the string `"60"` when absent) and is wrapped by
the final `except Exception` clause. -/
theorem c5_rate_limit_generic_message (headers : List (String × String))
    (body : Option JVal) (text : String) :
    CerebrasClient.chat_completion ⟨429, headers, body, text⟩ =
      .error ("Cerebras API error: Rate limit exceeded. Retry after " ++
        CerebrasClient.headerGetD headers "Retry-After" "60" ++ " seconds.") := by rfl

/-- C5 (witness for the amended theorem): header present (`30`) and
header absent (default `60`). -/
theorem c5_rate_limit_generic_message_witness :
    CerebrasClient.chat_completion ⟨429, [("Retry-After", "30")], none, ""⟩ =
      .error "Cerebras API error: Rate limit exceeded. Retry after 30 seconds." ∧
    CerebrasClient.chat_completion ⟨429, [], none, ""⟩ =
      .error "Cerebras API error: Rate limit exceeded. Retry after 60 seconds." := by
  constructor
  · rw [c5_rate_limit_generic_message [("Retry-After", "30")] none ""]
    rfl
  · rw [c5_rate_limit_generic_message [] none ""]
    rfl

/-- C6 (counterexample): `generate` parses the reply and returns the
mapping verbatim — it never calls `_parse_cover_letter_response`, so a
reply that omits `word_count` and `tone_matched` is returned without
them, contrary to the claim. -/
theorem c6_counterexample_generate_no_synthesis :
    CoverLetterGenerator.generate "\x7b\"cover_letter\": \"Dear team, hello\"\x7d".toList =
      .ok (.obj [("cover_letter", .str "Dear team, hello")]) ∧
    getk [("cover_letter", JVal.str "Dear team, hello")] "word_count" = none ∧
    getk [("cover_letter", JVal.str "Dear team, hello")] "tone_matched" = none :=
  ⟨by rfl, rfl, rfl⟩

/-- C6 (amended): the synthesis the claim describes lives in the helper
`_parse_cover_letter_response`, which `generate` does not call: for every
successfully parsed reply mapping whose `cover_letter` is a string, the
helper fills an omitted `word_count` with the whitespace-token count of
the letter and an omitted `tone_matched` with `True`. -/
theorem c6_parse_helper_synthesizes_metadata (r : List Char)
    (fs : List (String × JVal)) (letter : String)
    (hparse : json_loadsL (CoverLetterGenerator.clean_json_response r) = some (.obj fs))
    (hletter : getk fs "cover_letter" = some (.str letter))
    (hwc : getk fs "word_count" = none)
    (htm : getk fs "tone_matched" = none) :
    ∃ out, CoverLetterGenerator.parse_cover_letter_response r = .ok (.obj out) ∧
      getk out "cover_letter" = some (.str letter) ∧
      getk out "word_count" = some (.num (pySplitCount letter.toList)) ∧
      getk out "tone_matched" = some (.bool true) := by
  unfold CoverLetterGenerator.parse_cover_letter_response
  rw [hparse]
  simp only [hletter, Option.isSome_some, if_true, hwc, Option.getD_some]
  have htm2 : getk (setk fs "word_count" (.num (pySplitCount letter.toList)))
      "tone_matched" = none := by
    rw [getk_setk_ne _ _ _ _ (by decide)]
    exact htm
  simp only [htm2, Option.isSome_none, Bool.false_eq_true, if_false]
  refine ⟨_, rfl, ?_, ?_, ?_⟩
  · rw [getk_setk_ne _ _ _ _ (by decide), getk_setk_ne _ _ _ _ (by decide)]
    exact hletter
  · rw [getk_setk_ne _ _ _ _ (by decide)]
    exact getk_setk_self _ _ _
  · exact getk_setk_self _ _ _

/-- C6 (witness for the amended theorem): a two-token letter gets
`word_count = 2` and `tone_matched = true`. -/
theorem c6_parse_helper_synthesizes_metadata_witness :
    ∃ out, CoverLetterGenerator.parse_cover_letter_response
        "\x7b\"cover_letter\": \"Hi there\"\x7d".toList = .ok (.obj out) ∧
      getk out "cover_letter" = some (.str "Hi there") ∧
      getk out "word_count" = some (.num (pySplitCount "Hi there".toList)) ∧
      getk out "tone_matched" = some (.bool true) :=
  c6_parse_helper_synthesizes_metadata "\x7b\"cover_letter\": \"Hi there\"\x7d".toList
    [("cover_letter", .str "Hi there")] "Hi there" rfl rfl rfl rfl

/-- C7 (counterexample): with `user_information` present as a mapping,
the sentinel written for a missing `main_job_title` is `"None Provided"`,
not the claimed `"Professional"` (and likewise `"None Provided"` for
`name`/`profile_description`); the `"Candidate"`/`"Professional"`
sentinels are used only when `user_information` itself is missing or not
a mapping. -/
theorem c7_counterexample_wrong_sentinels :
    ResumeRouter.sanitize_for_pydantic
        (.obj [("user_information", .obj [("name", .str "Jane")])]) =
      .obj [("user_information", .obj
        [("name", .str "Jane"), ("main_job_title", .str "None Provided"),
         ("profile_description", .str "None Provided"),
         ("email", .str "none@example.com"),
         ("experiences", .arr []), ("education", .arr []),
         ("skills", .obj [("hard_skills", .arr []), ("soft_skills", .arr [])])])] ∧
    ("None Provided" : String) ≠ "Professional" :=
  ⟨by rfl, by decide⟩

/-- C7 (amended): for every candidate mapping whose `user_information`
is a mapping, the sanitizer fills each missing-or-falsy field among
`name`/`main_job_title`/`profile_description` with `"None Provided"` and
`email` with `"none@example.com"` (the `"Candidate"`/`"Professional"`
sentinels apply only on the synthesized-placeholder path), and every
mapping-typed experience entry ends with a non-empty `four_tasks` list
(non-mapping entries are skipped unchanged). -/
theorem c7_sanitize_mapping_sentinels (data ui : List (String × JVal))
    (hui : getk data "user_information" = some (.obj ui)) :
    ∃ d out, ResumeRouter.sanitize_for_pydantic (.obj data) = .obj d ∧
      getk d "user_information" = some (.obj out) ∧
      (∀ f ∈ (["name", "main_job_title", "profile_description"] : List String),
        missingOrFalsy (getk ui f) = true → getk out f = some (.str "None Provided")) ∧
      (missingOrFalsy (getk ui "email") = true →
        getk out "email" = some (.str "none@example.com")) ∧
      (∃ exps, getk out "experiences" = some (.arr exps) ∧
        ∀ e ∈ exps, ∀ g, e = JVal.obj g →
          ∃ ts, getk g "four_tasks" = some (.arr ts) ∧ ts ≠ []) := by
  unfold ResumeRouter.sanitize_for_pydantic
  simp only [hui]
  apply Exists.intro
  apply Exists.intro
  refine ⟨rfl, ?_, ?_, ?_, ?_⟩
  · rw [getk_foldl_not_mem ResumeRouter.optional_list_step_ne _ _ _ (by decide)]
    exact getk_setk_self _ _ _
  · intro f hf hmf
    unfold ResumeRouter.fix_skills
    fin_cases hf
    · rw [getk_setk_ne _ _ _ _ (by decide), getk_setk_ne _ _ _ _ (by decide),
          getk_setk_ne _ _ _ _ (by decide)]
      show getk (ResumeRouter.fix_user_strings ui) "name" = _
      unfold ResumeRouter.fix_user_strings
      simp only [List.foldl]
      rw [ResumeRouter.fix_user_string_step_ne _ _ _ (by decide),
          ResumeRouter.fix_user_string_step_ne _ _ _ (by decide),
          ResumeRouter.fix_user_string_step_ne _ _ _ (by decide),
          ResumeRouter.fix_user_string_step_bad _ _ hmf]
      rfl
    · rw [getk_setk_ne _ _ _ _ (by decide), getk_setk_ne _ _ _ _ (by decide),
          getk_setk_ne _ _ _ _ (by decide)]
      show getk (ResumeRouter.fix_user_strings ui) "main_job_title" = _
      unfold ResumeRouter.fix_user_strings
      simp only [List.foldl]
      rw [ResumeRouter.fix_user_string_step_ne _ _ _ (by decide),
          ResumeRouter.fix_user_string_step_ne _ _ _ (by decide),
          ResumeRouter.fix_user_string_step_bad _ _
            (by rw [ResumeRouter.fix_user_string_step_ne _ _ _ (by decide)]; exact hmf)]
      rfl
    · rw [getk_setk_ne _ _ _ _ (by decide), getk_setk_ne _ _ _ _ (by decide),
          getk_setk_ne _ _ _ _ (by decide)]
      show getk (ResumeRouter.fix_user_strings ui) "profile_description" = _
      unfold ResumeRouter.fix_user_strings
      simp only [List.foldl]
      rw [ResumeRouter.fix_user_string_step_ne _ _ _ (by decide),
          ResumeRouter.fix_user_string_step_bad _ _
            (by rw [ResumeRouter.fix_user_string_step_ne _ _ _ (by decide),
                    ResumeRouter.fix_user_string_step_ne _ _ _ (by decide)]; exact hmf)]
      rfl
  · intro hmf
    unfold ResumeRouter.fix_skills
    rw [getk_setk_ne _ _ _ _ (by decide), getk_setk_ne _ _ _ _ (by decide),
        getk_setk_ne _ _ _ _ (by decide)]
    show getk (ResumeRouter.fix_user_strings ui) "email" = _
    unfold ResumeRouter.fix_user_strings
    simp only [List.foldl]
    rw [ResumeRouter.fix_user_string_step_bad _ _
          (by rw [ResumeRouter.fix_user_string_step_ne _ _ _ (by decide),
                  ResumeRouter.fix_user_string_step_ne _ _ _ (by decide),
                  ResumeRouter.fix_user_string_step_ne _ _ _ (by decide)]; exact hmf)]
    rfl
  · unfold ResumeRouter.fix_skills
    rw [getk_setk_ne _ _ _ _ (by decide), getk_setk_ne _ _ _ _ (by decide)]
    refine ⟨_, getk_setk_self _ _ _, ?_⟩
    intro e he g hg
    obtain ⟨x, _, rfl⟩ := List.mem_map.mp he
    exact ResumeRouter.fix_experience_four_tasks x g hg

/-- C7 (witness for the amended theorem) at Scenario E's input
`{"user_information": {"name": "Jane"}}`. -/
theorem c7_sanitize_mapping_sentinels_witness :
    ∃ d out, ResumeRouter.sanitize_for_pydantic
        (.obj [("user_information", .obj [("name", .str "Jane")])]) = .obj d ∧
      getk d "user_information" = some (.obj out) ∧
      (∀ f ∈ (["name", "main_job_title", "profile_description"] : List String),
        missingOrFalsy (getk [("name", JVal.str "Jane")] f) = true →
          getk out f = some (.str "None Provided")) ∧
      (missingOrFalsy (getk [("name", JVal.str "Jane")] "email") = true →
        getk out "email" = some (.str "none@example.com")) ∧
      (∃ exps, getk out "experiences" = some (.arr exps) ∧
        ∀ e ∈ exps, ∀ g, e = JVal.obj g →
          ∃ ts, getk g "four_tasks" = some (.arr ts) ∧ ts ≠ []) :=
  c7_sanitize_mapping_sentinels [("user_information", .obj [("name", .str "Jane")])]
    [("name", .str "Jane")] rfl

/-- C10: applied to a non-mapping value the sanitizer returns the empty
mapping, which contains no `user_information` (nor any other mandatory
field) — the always-schema-satisfying guarantee holds only for mapping
inputs. -/
theorem c10_sanitize_non_mapping_empty (v : JVal) (h : v.isObj = false) :
    ResumeRouter.sanitize_for_pydantic v = .obj [] ∧
    getk ([] : List (String × JVal)) "user_information" = none := by
  refine ⟨?_, rfl⟩
  cases v with
  | obj fs => simp [JVal.isObj] at h
  | null => rfl
  | bool b => rfl
  | num n => rfl
  | str s => rfl
  | arr xs => rfl

/-- C10 (witness) on a list input. -/
theorem c10_sanitize_non_mapping_empty_witness :
    ResumeRouter.sanitize_for_pydantic (.arr [.num 1]) = .obj [] ∧
    getk ([] : List (String × JVal)) "user_information" = none :=
  c10_sanitize_non_mapping_empty (.arr [.num 1]) rfl

/-- C9 (counterexample): a non-local base URL (`API_BASE` set to a remote
OpenAI endpoint) with no credential in any source resolves successfully
with an empty credential — the route's resolver raises only for a
missing base URL, so "every non-local provider with no credential fails
fast at resolution" is false. -/
theorem c9_counterexample_nonlocal_without_credential_resolves :
    ResumeRouter.resolve_llm_config [("API_BASE", "https://api.openai.com/v1")] =
      .ok { api_key := none, api_base_url := "https://api.openai.com/v1",
            model_name := "mistral:7b-instruct-v0.3-q4_K_M", is_local_llm := false,
            enable_local_fallback := false } := by rfl

/-- C9 (amended): the fail-fast is real only at `CerebrasClient`
construction — with no key argument and a falsy `CEREBRAS_API_KEY` it
raises `ValueError`; the route resolver, for its part, substitutes the
dummy credential `"ollama"` whenever the resolved base URL is
local-network, so a local profile never resolves with an empty
credential — but a non-local base URL with no credential resolves
without error (see the counterexample). -/
theorem c9_failfast_client_and_local_dummy :
    (∀ env : Env, truthyStr (getenv env "CEREBRAS_API_KEY") = false →
      CerebrasClient.init none none none env =
        .error "CEREBRAS_API_KEY not found. Set it in .env file or pass as parameter.") ∧
    (∀ (env : Env) (cfg : ResumeRouter.LlmConfig),
      ResumeRouter.resolve_llm_config env = .ok cfg →
      cfg.is_local_llm = true → truthyStr cfg.api_key = true) := by
  constructor
  · intro env henv
    unfold CerebrasClient.init
    simp only [orStr]
    rw [henv]
    simp
  · intro env cfg hres hlocal
    unfold ResumeRouter.resolve_llm_config at hres
    split at hres
    · exact absurd hres (by simp)
    · injection hres with hcfg
      subst hcfg
      have hl : ResumeRouter.resolved_is_local env = true := hlocal
      show truthyStr (if ResumeRouter.resolved_is_local env &&
        !truthyStr (ResumeRouter.resolved_key env) then some "ollama"
        else ResumeRouter.resolved_key env) = true
      rw [hl]
      cases hkey : truthyStr (ResumeRouter.resolved_key env) with
      | true => simpa using hkey
      | false => simp [truthyStr]

/-- C9 (witness for the amended theorem): an empty environment makes the
client constructor raise, and a loopback `OLLAMA_BASE_URL` with no key
resolves to the dummy credential. -/
theorem c9_failfast_client_and_local_dummy_witness :
    CerebrasClient.init none none none [] =
      .error "CEREBRAS_API_KEY not found. Set it in .env file or pass as parameter." ∧
    ∃ cfg, ResumeRouter.resolve_llm_config [("OLLAMA_BASE_URL", "http://localhost:11434")] =
      .ok cfg ∧ truthyStr cfg.api_key = true := by
  constructor
  · exact c9_failfast_client_and_local_dummy.1 [] rfl
  · refine ⟨_, rfl, ?_⟩
    exact c9_failfast_client_and_local_dummy.2
      [("OLLAMA_BASE_URL", "http://localhost:11434")] _ rfl rfl

namespace ResumeRouter

/-- After `fix_experience`, a mapping entry has all four string fields
present and a non-empty `four_tasks` list. -/
theorem fix_experience_shape (e : List (String × JVal)) :
    ∃ g, fix_experience (.obj e) = .obj g ∧
      (∀ f ∈ (["job_title", "company", "start_date", "end_date"] : List String),
        (getk g f).isSome = true) ∧
      (∃ ts, getk g "four_tasks" = some (.arr ts) ∧ ts ≠ []) := by
  refine ⟨_, rfl, ?_, ?_⟩
  · intro f hf
    have hp := foldl_getk_post (P := fun o => o.isSome = true)
      ensure_unknown_step_ne ensure_unknown_step_post
      ["job_title", "company", "start_date", "end_date"] e f hf
    have hne : f ≠ "four_tasks" := by fin_cases hf <;> decide
    show (getk (match getk (List.foldl ensure_unknown_step e
        ["job_title", "company", "start_date", "end_date"]) "four_tasks" with
      | some (.arr l) => if l.isEmpty then setk (List.foldl ensure_unknown_step e
          ["job_title", "company", "start_date", "end_date"]) "four_tasks" default_four_tasks
        else List.foldl ensure_unknown_step e
          ["job_title", "company", "start_date", "end_date"]
      | _ => setk (List.foldl ensure_unknown_step e
          ["job_title", "company", "start_date", "end_date"]) "four_tasks" default_four_tasks)
      f).isSome = true
    split
    · split
      · rw [getk_setk_ne _ _ _ _ (Ne.symm hne)]
        exact hp
      · exact hp
    · rw [getk_setk_ne _ _ _ _ (Ne.symm hne)]
      exact hp
  · exact fix_experience_four_tasks (.obj e) _ rfl

/-- `fix_experience` is the identity on an entry that already has the
four fields and a non-empty `four_tasks` list. -/
theorem fix_experience_noop (g : List (String × JVal))
    (hp : ∀ f ∈ (["job_title", "company", "start_date", "end_date"] : List String),
      (getk g f).isSome = true)
    (ht : ∃ ts, getk g "four_tasks" = some (.arr ts) ∧ ts ≠ []) :
    fix_experience (.obj g) = .obj g := by
  obtain ⟨ts, hts, htne⟩ := ht
  have he1 : List.foldl ensure_unknown_step g
      ["job_title", "company", "start_date", "end_date"] = g :=
    foldl_noop (Q := fun o => o.isSome = true) ensure_unknown_step_noop _ g hp
  show JVal.obj (match getk (List.foldl ensure_unknown_step g
      ["job_title", "company", "start_date", "end_date"]) "four_tasks" with
    | some (.arr l) => if l.isEmpty then setk (List.foldl ensure_unknown_step g
        ["job_title", "company", "start_date", "end_date"]) "four_tasks" default_four_tasks
      else List.foldl ensure_unknown_step g
        ["job_title", "company", "start_date", "end_date"]
    | _ => setk (List.foldl ensure_unknown_step g
        ["job_title", "company", "start_date", "end_date"]) "four_tasks" default_four_tasks) =
    JVal.obj g
  have hemp : ts.isEmpty = false := by
    cases ts with
    | nil => exact absurd rfl htne
    | cons a t => rfl
  rw [he1, hts]
  simp only [hemp, Bool.false_eq_true, if_false]

/-- `fix_experience` is idempotent. -/
theorem fix_experience_idem (x : JVal) :
    fix_experience (fix_experience x) = fix_experience x := by
  cases x with
  | obj e =>
      obtain ⟨g, hg, hp, ht⟩ := fix_experience_shape e
      rw [hg]
      exact fix_experience_noop g hp ht
  | null => rfl
  | bool b => rfl
  | num n => rfl
  | str s => rfl
  | arr xs => rfl

/-- After `fix_education`, a mapping entry has all four fields present. -/
theorem fix_education_shape (e : List (String × JVal)) :
    ∃ g, fix_education (.obj e) = .obj g ∧
      (∀ f ∈ (["institution", "degree", "start_date", "end_date"] : List String),
        (getk g f).isSome = true) := by
  refine ⟨_, rfl, ?_⟩
  intro f hf
  exact foldl_getk_post (P := fun o => o.isSome = true)
    ensure_unknown_step_ne ensure_unknown_step_post
    ["institution", "degree", "start_date", "end_date"] e f hf

/-- `fix_education` is the identity when all four fields are present. -/
theorem fix_education_noop (g : List (String × JVal))
    (hp : ∀ f ∈ (["institution", "degree", "start_date", "end_date"] : List String),
      (getk g f).isSome = true) :
    fix_education (.obj g) = .obj g := by
  show JVal.obj (List.foldl ensure_unknown_step g
      ["institution", "degree", "start_date", "end_date"]) = JVal.obj g
  rw [foldl_noop (Q := fun o => o.isSome = true) ensure_unknown_step_noop _ g hp]

/-- `fix_education` is idempotent. -/
theorem fix_education_idem (x : JVal) :
    fix_education (fix_education x) = fix_education x := by
  cases x with
  | obj e =>
      obtain ⟨g, hg, hp⟩ := fix_education_shape e
      rw [hg]
      exact fix_education_noop g hp
  | null => rfl
  | bool b => rfl
  | num n => rfl
  | str s => rfl
  | arr xs => rfl

/-- Mapping `fix_experience` over a list is idempotent. -/
theorem map_fix_experience_idem (l : List JVal) :
    (l.map fix_experience).map fix_experience = l.map fix_experience := by
  induction l with
  | nil => rfl
  | cons x t ih => simp [ih, fix_experience_idem]

/-- Mapping `fix_education` over a list is idempotent. -/
theorem map_fix_education_idem (l : List JVal) :
    (l.map fix_education).map fix_education = l.map fix_education := by
  induction l with
  | nil => rfl
  | cons x t ih => simp [ih, fix_education_idem]

/-- The invariants a sanitized `user_information` mapping satisfies. -/
def SanitizedUi (ui4 : List (String × JVal)) : Prop :=
  (∀ f ∈ (["name", "main_job_title", "profile_description", "email"] : List String),
    ∃ v, getk ui4 f = some v ∧ v.truthy = true) ∧
  (∃ exps1, getk ui4 "experiences" = some (.arr exps1) ∧
    exps1.map fix_experience = exps1) ∧
  (∃ edus1, getk ui4 "education" = some (.arr edus1) ∧
    edus1.map fix_education = edus1) ∧
  (∃ sk, getk ui4 "skills" = some (.obj sk) ∧
    ∀ f ∈ (["hard_skills", "soft_skills"] : List String),
      ∃ xs, getk sk f = some (.arr xs))

/-- `sanitize_for_pydantic` is the identity on a mapping whose
`user_information` satisfies the invariants and whose optional top-level
fields are absent or list-typed. -/
theorem sanitize_fixed_point (d2 ui4 : List (String × JVal))
    (hui : getk d2 "user_information" = some (.obj ui4))
    (hsan : SanitizedUi ui4)
    (hopt : ∀ f ∈ (["projects", "certificate", "extra_curricular_activities"] : List String),
      getk d2 f = none ∨ ∃ xs, getk d2 f = some (.arr xs)) :
    sanitize_for_pydantic (.obj d2) = .obj d2 := by
  obtain ⟨h4, ⟨exps1, hexp, hexpmap⟩, ⟨edus1, hedu, hedumap⟩, ⟨sk, hsk, hskf⟩⟩ := hsan
  unfold sanitize_for_pydantic
  simp only [hui]
  have hfix : fix_user_strings ui4 = ui4 :=
    foldl_noop (Q := fun o => ∃ v, o = some v ∧ v.truthy = true)
      fix_user_string_step_noop _ ui4 h4
  rw [hfix, hexp]
  rw [hexpmap, setk_of_getk _ _ _ hexp, hedu, hedumap, setk_of_getk _ _ _ hedu]
  unfold fix_skills
  simp only [hsk]
  rw [foldl_noop (Q := fun o => ∃ xs, o = some (.arr xs))
        skills_field_step_noop _ sk hskf, setk_of_getk _ _ _ hsk,
      setk_of_getk _ _ _ hui,
      foldl_noop (Q := fun o => o = none ∨ ∃ xs, o = some (.arr xs))
        optional_list_step_noop _ d2 hopt]

/-- The output of `sanitize_for_pydantic` on any mapping satisfies the
fixed-point invariants. -/
theorem sanitize_establishes (data : List (String × JVal)) :
    ∃ d2 ui4, sanitize_for_pydantic (.obj data) = .obj d2 ∧
      getk d2 "user_information" = some (.obj ui4) ∧
      SanitizedUi ui4 ∧
      (∀ f ∈ (["projects", "certificate", "extra_curricular_activities"] : List String),
        getk d2 f = none ∨ ∃ xs, getk d2 f = some (.arr xs)) := by
  unfold sanitize_for_pydantic
  apply Exists.intro
  apply Exists.intro
  refine ⟨rfl, ?_, ⟨?_, ?_, ?_, ?_⟩, ?_⟩
  · rw [getk_foldl_not_mem optional_list_step_ne _ _ _ (by decide)]
    exact getk_setk_self _ _ _
  · intro f hf
    unfold fix_skills
    fin_cases hf
    · rw [getk_setk_ne _ _ _ _ (by decide), getk_setk_ne _ _ _ _ (by decide),
          getk_setk_ne _ _ _ _ (by decide)]
      exact foldl_getk_post (P := fun o => ∃ v, o = some v ∧ v.truthy = true)
        fix_user_string_step_ne fix_user_string_step_post
        ["name", "main_job_title", "profile_description", "email"] _ "name" (by decide)
    · rw [getk_setk_ne _ _ _ _ (by decide), getk_setk_ne _ _ _ _ (by decide),
          getk_setk_ne _ _ _ _ (by decide)]
      exact foldl_getk_post (P := fun o => ∃ v, o = some v ∧ v.truthy = true)
        fix_user_string_step_ne fix_user_string_step_post
        ["name", "main_job_title", "profile_description", "email"] _ "main_job_title" (by decide)
    · rw [getk_setk_ne _ _ _ _ (by decide), getk_setk_ne _ _ _ _ (by decide),
          getk_setk_ne _ _ _ _ (by decide)]
      exact foldl_getk_post (P := fun o => ∃ v, o = some v ∧ v.truthy = true)
        fix_user_string_step_ne fix_user_string_step_post
        ["name", "main_job_title", "profile_description", "email"] _ "profile_description" (by decide)
    · rw [getk_setk_ne _ _ _ _ (by decide), getk_setk_ne _ _ _ _ (by decide),
          getk_setk_ne _ _ _ _ (by decide)]
      exact foldl_getk_post (P := fun o => ∃ v, o = some v ∧ v.truthy = true)
        fix_user_string_step_ne fix_user_string_step_post
        ["name", "main_job_title", "profile_description", "email"] _ "email" (by decide)
  · unfold fix_skills
    rw [getk_setk_ne _ _ _ _ (by decide), getk_setk_ne _ _ _ _ (by decide)]
    exact ⟨_, getk_setk_self _ _ _, map_fix_experience_idem _⟩
  · unfold fix_skills
    rw [getk_setk_ne _ _ _ _ (by decide)]
    exact ⟨_, getk_setk_self _ _ _, map_fix_education_idem _⟩
  · unfold fix_skills
    refine ⟨_, getk_setk_self _ _ _, ?_⟩
    intro f hf
    exact foldl_getk_post (P := fun o => ∃ xs, o = some (.arr xs))
      skills_field_step_ne skills_field_step_post ["hard_skills", "soft_skills"] _ f hf
  · intro f hf
    exact foldl_getk_post (P := fun o => o = none ∨ ∃ xs, o = some (.arr xs))
      optional_list_step_ne optional_list_step_post
      ["projects", "certificate", "extra_curricular_activities"] _ f hf

end ResumeRouter

/-- C8: sanitization is idempotent on every candidate mapping — applying
`sanitize_for_pydantic` twice returns exactly the result of applying it
once (structural equality of the association lists, which implies Python
dict equality). -/
theorem c8_sanitize_idempotent (v : JVal) (h : v.isObj = true) :
    ResumeRouter.sanitize_for_pydantic (ResumeRouter.sanitize_for_pydantic v) =
      ResumeRouter.sanitize_for_pydantic v := by
  cases v with
  | obj data =>
      obtain ⟨d2, ui4, hd2, hui, hsan, hopt⟩ := ResumeRouter.sanitize_establishes data
      rw [hd2]
      exact ResumeRouter.sanitize_fixed_point d2 ui4 hui hsan hopt
  | null => simp [JVal.isObj] at h
  | bool b => simp [JVal.isObj] at h
  | num n => simp [JVal.isObj] at h
  | str s => simp [JVal.isObj] at h
  | arr xs => simp [JVal.isObj] at h

/-- C8 (witness) at Scenario E's input. -/
theorem c8_sanitize_idempotent_witness :
    ResumeRouter.sanitize_for_pydantic (ResumeRouter.sanitize_for_pydantic
        (.obj [("user_information", .obj [("name", .str "Jane")])])) =
      ResumeRouter.sanitize_for_pydantic
        (.obj [("user_information", .obj [("name", .str "Jane")])]) :=
  c8_sanitize_idempotent (.obj [("user_information", .obj [("name", .str "Jane")])]) rfl

/-- C2 (witness for the amended theorem), at the concrete fallback input
`"score missing here"`: no score is extracted, so the fallback returns
`ats_score = 50`. -/
theorem c2_parse_structured_total_unclamped_witness :
    (∃ j, CVAnalyzer.analyze "score missing here".toList = .ok j) ∧
    (json_loadsL (CVAnalyzer.clean_json_response "score missing here".toList) = none →
      ∃ fs, CVAnalyzer.analyze "score missing here".toList = .ok (.obj fs) ∧
        getk fs "ats_score" =
          some (.num (((searchAts "score missing here".toList).getD 50 : Nat) : Int))) :=
  c2_parse_structured_total_unclamped "score missing here".toList

end PowerCV
